import Mathlib

/-! uip_shared: patient-page extractor and appointment-search client.

A shallow embedding of the two browser scripts of the repository

* `cmdcomextra20251212.js`  (listing extractor, field resolver, record extractor,
  correlation store), and
* `ecwsearchpublic20260118.js` (search client: validation, normalisation, flattening),

together with the properties of the specification that were checked against them.

The scripts run against a browser page.  The page is modelled as an explicit tree of
nodes; every DOM query the scripts issue is a computable function over that tree.
JavaScript strings are modelled by `String` and inspected through their list of
characters; exceptions are modelled by `Except JSError`.
-/

namespace UipShared

/-! ## JavaScript values -/

/-- Primitive JavaScript values handled by the scripts.  Numbers are the integers
(the scripts only test numbers for truthiness and copy them). -/
inductive JSVal where
  | undefined
  | null
  | bool (b : Bool)
  | num (n : Int)
  | str (s : String)
deriving DecidableEq, Repr

/-- Truthiness of a value, as used by `||`, `!` and `if`. -/
def JSVal.truthy : JSVal → Bool
  | .undefined => false
  | .null => false
  | .bool b => b
  | .num n => n != 0
  | .str s => !s.data.isEmpty

/-- The expression `a || b` on two values that are already evaluated. -/
def jsOr (a b : JSVal) : JSVal :=
  if a.truthy then a else b

/-- Exceptions the scripts can meet.  The last constructor is not an exception of the
program: it marks a call whose outcome the model does not decide (a selector built from
a control name whose validity depends on text the model does not parse).  What is
computed from it says nothing about the program, and every property about raised
exceptions excludes it. -/
inductive JSError where
  | typeError
  | syntaxError
  | securityError
  | notModelled
deriving DecidableEq, Repr

/-- A plain object whose property values are primitives: the own properties
in insertion order. -/
abbrev JSObject := List (String × JSVal)

/-- Property assignment `o[k] = v`: overwrite in place, or append a new key. -/
def objSet : JSObject → String → JSVal → JSObject
  | [], k, v => [(k, v)]
  | (k0, v0) :: rest, k, v =>
    if k0 = k then (k0, v) :: rest else (k0, v0) :: objSet rest k v

/-- Two flat objects are deep-equal when they have the same keys with the same values. -/
def deepEqual (a b : JSObject) : Bool :=
  a.all (fun kv => decide (b.lookup kv.1 = some kv.2)) &&
  b.all (fun kv => decide (a.lookup kv.1 = some kv.2))

/-! ## Text helpers (on the characters of a string) -/

/-- White space and line terminators removed by `String.prototype.trim`. -/
def isJSSpace (c : Char) : Bool :=
  let n := c.toNat
  [9, 10, 11, 12, 13, 32, 160, 5760, 8232, 8233, 8239, 8287, 12288, 65279].contains n
    || (8192 ≤ n && n ≤ 8202)

/-- The method `trim`. -/
def jsTrim (s : List Char) : List Char :=
  ((s.dropWhile isJSSpace).reverse.dropWhile isJSSpace).reverse

/-- The method `includes`: the needle occurs as a contiguous substring. -/
def jsIncludes : List Char → List Char → Bool
  | [], needle => needle.isEmpty
  | c :: cs, needle => needle.isPrefixOf (c :: cs) || jsIncludes cs needle

/-- The method `replace` with a string pattern: only the first occurrence is replaced. -/
def jsReplaceFirst (pat rep : List Char) : List Char → List Char
  | [] => if pat.isEmpty then rep else []
  | c :: cs =>
    if pat.isPrefixOf (c :: cs) then rep ++ (c :: cs).drop pat.length
    else c :: jsReplaceFirst pat rep cs

/-- ASCII lower-casing. -/
def asciiLower (s : List Char) : List Char :=
  s.map (fun c => if 65 ≤ c.toNat ∧ c.toNat ≤ 90 then Char.ofNat (c.toNat + 32) else c)

/-- The regular expression `LoadPatient\((\d+),` tried at the start of `s`:
the literal text, a maximal non-empty run of digits, then a comma.
The result is capture group 1. -/
def matchLoadPatientAt (s : List Char) : Option (List Char) :=
  if "LoadPatient(".data.isPrefixOf s then
    let rest := s.drop "LoadPatient(".data.length
    let digits := rest.takeWhile Char.isDigit
    if !digits.isEmpty && (rest.dropWhile Char.isDigit).head? == some (Char.ofNat 44)
    then some digits else none
  else none

/-- The call `href.match(/LoadPatient\((\d+),/)`: leftmost match, capture group 1. -/
def matchLoadPatient : List Char → Option (List Char)
  | [] => none
  | c :: cs =>
    match matchLoadPatientAt (c :: cs) with
    | some d => some d
    | none => matchLoadPatient cs

/-! ## The page -/

/-- One entry of the `options` collection of a selection control. -/
structure SelectOption where
  text : String
  value : String
deriving DecidableEq, Repr

/-- The type states of an input control. -/
def inputTypes : List String :=
  ["hidden", "text", "search", "tel", "url", "email", "password", "date", "month", "week",
   "time", "datetime-local", "number", "range", "color", "checkbox", "radio", "file",
   "submit", "image", "reset", "button"]

/-- The type state of an input control with the given `type` attribute: the attribute in
lower case when it is a known keyword, text otherwise. -/
def inputTypeState (typeAttr : Option String) : String :=
  match typeAttr with
  | none => "text"
  | some t =>
    let l := String.mk (asciiLower t.data)
    if inputTypes.contains l then l else "text"

/-- Tags of the HTML elements whose `type` property returns the `type` attribute as it
is written. -/
def reflectsType : List String :=
  ["A", "LINK", "SCRIPT", "STYLE", "SOURCE", "EMBED", "OBJECT", "OL", "UL", "LI", "PARAM"]

/-- Tags of the HTML elements that have a `name` property returning the `name` attribute. -/
def reflectsName : List String :=
  ["INPUT", "A", "BUTTON", "SELECT", "TEXTAREA", "FORM", "IFRAME", "IMG", "MAP", "META",
   "EMBED", "OBJECT", "PARAM", "FIELDSET", "OUTPUT", "SLOT", "FRAME"]

/-- What `element.type` reads on a usual HTML element: the type state of an input
control, the attribute as written on the elements that reflect it, a fixed word on a
button, a text area or a selection control, and the empty string (standing for a value
that is not a string) elsewhere. -/
def usualType (tagName : String) (typeAttr : Option String) : String :=
  if tagName = "INPUT" then inputTypeState typeAttr
  else if reflectsType.contains tagName then typeAttr.getD ""
  else if tagName = "TEXTAREA" then "textarea"
  else if tagName = "SELECT" then "select-one"
  else if tagName = "BUTTON" then
    (if (typeAttr.map (fun t => String.mk (asciiLower t.data))) = some "reset" then "reset"
     else if (typeAttr.map (fun t => String.mk (asciiLower t.data))) = some "button"
     then "button" else "submit")
  else ""

/-- The text that `element.name` gives when it is spliced into a template string on a
usual HTML element: the `name` attribute (empty when missing) where the property
exists, the word undefined elsewhere. -/
def usualNameText (tagName : String) (name : Option String) : String :=
  if reflectsName.contains tagName then name.getD "" else "undefined"

/-- The attributes and properties of an element that the scripts read.

Content attributes, as matched by selectors and `getAttribute`: `id`, `name`, `typeAttr`
and `href` (`none` when the attribute is missing).  `tagName` is upper case as in an HTML
document.

Properties, as read by the code: `value` is the `value` property when it is a string
(an element without that property is given the empty string: both are falsy and both
read as the empty string) and `numberValue` is that property when it is a number (a list
item, a meter, a progress bar); `checked` is the checkedness of an input control;
`type` is `element.type`, `nameText` is the text of `element.name` inside a template
string and `checkedProperty` is `element.checked`.  The last three are given with the
element, so that an element of any kind is described by what the code reads on it; when
they are left out they take the values of a usual HTML element. -/
structure Attrs where
  tagName : String
  id : String := ""
  name : Option String := none
  typeAttr : Option String := none
  value : String := ""
  numberValue : Option Int := none
  checked : Bool := false
  href : Option String := none
  options : List SelectOption := []
  selectedIndex : Int := -1
  type : String := usualType tagName typeAttr
  nameText : String := usualNameText tagName name
  checkedProperty : JSVal := if tagName = "INPUT" then .bool checked else .undefined
deriving DecidableEq, Repr

/-- A node of the page tree: a text node or an element with its child nodes. -/
inductive Node where
  | text (data : String)
  | elem (a : Attrs) (kids : List Node)
deriving Repr

/-- A document: the child nodes of the document node, in order. -/
abbrev Document := List Node

mutual
/-- The property `textContent` of a node. -/
def Node.textContent : Node → List Char
  | .text s => s.data
  | .elem _ ks => textContentList ks
/-- Concatenated text of a list of sibling nodes. -/
def textContentList : List Node → List Char
  | [] => []
  | n :: ns => n.textContent ++ textContentList ns
end

/-- An element together with what the scripts can reach from it: its child nodes,
the child nodes of its parent element and its next element sibling (if any). -/
structure Located where
  attrs : Attrs
  kids : List Node
  parentKids : Option (List Node)
  nextSibling : Option (Attrs × List Node)
deriving Repr

/-- First element among a list of sibling nodes. -/
def firstElement : List Node → Option (Attrs × List Node)
  | [] => none
  | .text _ :: rest => firstElement rest
  | .elem a ks :: _ => some (a, ks)

mutual
/-- Elements of the subtree of a node, in document order. -/
def locateNode (parentKids : Option (List Node)) (next : Option (Attrs × List Node)) :
    Node → List Located
  | .text _ => []
  | .elem a ks => ⟨a, ks, parentKids, next⟩ :: locateList (some ks) ks
/-- Elements below a list of sibling nodes, in document order. -/
def locateList (parentKids : Option (List Node)) : List Node → List Located
  | [] => []
  | n :: ns => locateNode parentKids (firstElement ns) n ++ locateList parentKids ns
end

/-- All elements of a document in document order. -/
def Document.elements (doc : Document) : List Located :=
  locateList none doc

/-- The property `textContent` of an element. -/
def Located.textContent (l : Located) : List Char :=
  textContentList l.kids

/-- The call `doc.getElementById(id)`: first element in document order with that id. -/
def getElementById (doc : Document) (id : String) : Option Located :=
  if id.data.isEmpty then none else doc.elements.find? (fun l => l.attrs.id == id)

/-- The property `element.value`: for a selection control the value of the selected
option (empty when none is selected), otherwise the stored value. -/
def Attrs.jsValue (a : Attrs) : String :=
  if a.tagName = "SELECT" then
    match a.options.get? a.selectedIndex.toNat with
    | some o => if a.selectedIndex < 0 then "" else o.value
    | none => ""
  else a.value

/-- The property `element.value` as `getValue` reads it on an element of any kind: the
number when the property is a number, the string otherwise. -/
def Attrs.valueProperty (a : Attrs) : JSVal :=
  match a.numberValue with
  | some n => .num n
  | none => .str a.jsValue

/-- The expression `element.options[element.selectedIndex]?.text || ''`. -/
def selectedText (a : Attrs) : String :=
  if a.selectedIndex < 0 then ""
  else
    match a.options.get? a.selectedIndex.toNat with
    | some o => o.text
    | none => ""

/-! ## Listing extractor (`extractPatientsFromDocument`) -/

/-- The identity tuple pushed for one result row.  The auxiliary fields read through
`?.` are `none` when the sibling element is missing (the value `undefined`). -/
structure PatientTuple where
  index : Nat
  hiddenPatientId : String
  accountNumber : Option String
  patientName : String
  ssn : Option String
  phone : Option String
  dob : Option String
  chart : Option String
  patientBalance : Option String
  planBalance : Option String
deriving DecidableEq, Repr

/-- The call `doc.querySelectorAll('a[id^="anchorPatientName"]')`. -/
def patientLinks (doc : Document) : List Located :=
  doc.elements.filter
    (fun l => l.attrs.tagName == "A" && "anchorPatientName".data.isPrefixOf l.attrs.id.data)

/-- The expression `doc.getElementById(id)?.textContent.trim()`. -/
def siblingText (doc : Document) (id : String) : Option String :=
  (getElementById doc id).map (fun el => String.mk (jsTrim el.textContent))

/-- The body of the `try` block run for one row: `.error` when it throws (a missing
`href` makes `getAttribute` return null, and `null.match` throws), `.ok none` when the
row is skipped with a warning, `.ok (some t)` when a tuple is pushed. -/
def processRow (doc : Document) (patientLink : Located) (index : Nat) :
    Except JSError (Option PatientTuple) :=
  match patientLink.attrs.href with
  | none => .error .typeError
  | some href =>
    let hrefMatch := matchLoadPatient href.data
    match hrefMatch with
    | none => .ok none
    | some digits =>
      if digits.isEmpty then .ok none
      else
        let idSuffix :=
          String.mk (jsReplaceFirst "anchorPatientName".data [] patientLink.attrs.id.data)
        .ok (some
          { index := index + 1
            hiddenPatientId := String.mk digits
            accountNumber := siblingText doc ("spanPatientAccount" ++ idSuffix)
            patientName := String.mk (jsTrim patientLink.textContent)
            ssn := siblingText doc ("spanPatientSSN" ++ idSuffix)
            phone := siblingText doc ("spanPatientPhone" ++ idSuffix)
            dob := siblingText doc ("spanPatientDOB" ++ idSuffix)
            chart := siblingText doc ("spanPatientLocationOrChart" ++ idSuffix)
            patientBalance := siblingText doc ("spanPatientBalance" ++ idSuffix)
            planBalance := siblingText doc ("spanPatientPlan" ++ idSuffix) })

/-- The loop `patientLinks.forEach((patientLink, index) => ...)` with the array
`patients` as accumulator: a row that throws or is skipped pushes nothing. -/
def forEachRow (doc : Document) : List Located → Nat → List PatientTuple → List PatientTuple
  | [], _, patients => patients
  | patientLink :: rest, index, patients =>
    match processRow doc patientLink index with
    | .ok (some t) => forEachRow doc rest (index + 1) (patients ++ [t])
    | .ok none => forEachRow doc rest (index + 1) patients
    | .error _ => forEachRow doc rest (index + 1) patients

/-- The function `extractPatientsFromDocument`; `none` is the JavaScript `null`. -/
def extractPatientsFromDocument (doc : Document) : Option (List PatientTuple) :=
  let links := patientLinks doc
  if links.length = 0 then none
  else
    let patients := forEachRow doc links 0 []
    if patients.length > 0 then some patients else none

/-- The tuples carried by a listing result (`null` carries none). -/
def listingTuples (r : Option (List PatientTuple)) : List PatientTuple :=
  r.getD []

/-! ## Search page flow -/

/-- An embedded sub-document; `contentDocument = none` when it cannot be reached
(the access `iframe.contentDocument || iframe.contentWindow.document` throws). -/
structure Frame where
  id : String := ""
  name : String := ""
  contentDocument : Option Document
deriving Repr

/-- A search page: its own document and its `iframe` elements in document order. -/
structure Page where
  document : Document
  iframes : List Frame
deriving Repr

/-- The text `iframe "<id || name || 'unnamed'>"` given to `foundLocation`. -/
def frameLocation (f : Frame) : String :=
  let label :=
    if !f.id.data.isEmpty then f.id else if !f.name.data.isEmpty then f.name else "unnamed"
  "iframe " ++ String.singleton (Char.ofNat 34) ++ label ++ String.singleton (Char.ofNat 34)

/-- The loop over `iframes`: stops at the first reachable sub-document that yields
tuples; an unreachable one throws and is skipped by the `catch`. -/
def searchIframes : List Frame → Option (List PatientTuple × String)
  | [] => none
  | iframe :: rest =>
    match iframe.contentDocument with
    | none => searchIframes rest
    | some iframeDoc =>
      match extractPatientsFromDocument iframeDoc with
      | some patients => some (patients, frameLocation iframe)
      | none => searchIframes rest

/-- The listing and `foundLocation` after the main document and the fallback loop. -/
def findPatients (page : Page) : Option (List PatientTuple × String) :=
  match extractPatientsFromDocument page.document with
  | some patients => some (patients, "current page")
  | none => searchIframes page.iframes

/-- Terminal branches of the search-page flow. -/
inductive SearchOutcome where
  | notFound
  | single (patient : PatientTuple) (foundLocation : String)
  | multiple (patients : List PatientTuple) (foundLocation : String)
deriving DecidableEq, Repr

/-- The branch the search-page flow ends in (value returned by the script:
`undefined`, the single tuple, or the whole listing). -/
def searchPageOutcome (page : Page) : SearchOutcome :=
  match findPatients page with
  | none => .notFound
  | some (patients, foundLocation) =>
    match patients with
    | [patient] => .single patient foundLocation
    | _ => .multiple patients foundLocation

/-! ## Search client: flattening (`ecwsearchpublic20260118.js`) -/

/-- One entry of `group.results` as delivered by the endpoint. -/
structure ApiSlot where
  date : JSVal := .undefined
  startTime : JSVal := .undefined
  datetime : JSVal := .undefined
  providerName : JSVal := .undefined
  providerId : JSVal := .undefined
  facilityName : JSVal := .undefined
  facilityId : JSVal := .undefined
  visitType : JSVal := .undefined
  slotduration : JSVal := .undefined
deriving DecidableEq, Repr

/-- One group of the response; `results = none` when `group.results` is missing or
is not an array. -/
structure ApiGroup where
  results : Option (List ApiSlot)
  duration : JSVal := .undefined
deriving DecidableEq, Repr

/-- One flattened slot record. -/
structure SlotRecord where
  date : JSVal
  time : JSVal
  datetime : JSVal
  provider : JSVal
  providerId : JSVal
  facility : JSVal
  facilityId : JSVal
  visitType : JSVal
  duration : JSVal
deriving DecidableEq, Repr

/-- The object literal pushed for one result of one group. -/
def makeSlot (group : ApiGroup) (slot : ApiSlot) : SlotRecord :=
  { date := slot.date
    time := slot.startTime
    datetime := slot.datetime
    provider := slot.providerName
    providerId := slot.providerId
    facility := slot.facilityName
    facilityId := slot.facilityId
    visitType := slot.visitType
    duration := jsOr group.duration slot.slotduration }

/-- The inner loop `for (const slot of group.results)` pushing onto `slots`. -/
def pushResults (group : ApiGroup) (slots : List SlotRecord) (results : List ApiSlot) :
    List SlotRecord :=
  results.foldl (fun slots slot => slots ++ [makeSlot group slot]) slots

/-- The body of the outer loop: a group without a results array pushes nothing. -/
def flattenGroup (slots : List SlotRecord) (group : ApiGroup) : List SlotRecord :=
  match group.results with
  | none => slots
  | some results => pushResults group slots results

/-- The two nested `for ... of` loops, starting from `slots = []`. -/
def flattenResults (response : List ApiGroup) : List SlotRecord :=
  response.foldl flattenGroup []

/-! ## Search client: validation, normalisation, request -/

/-- One entry of `params.providers`: a bare number or an object with primitive
properties. -/
inductive ProviderInput where
  | number (n : Int)
  | object (o : JSObject)
deriving DecidableEq, Repr

/-- The property `params.providers`: missing, a value that is not an array, or an array. -/
inductive ProvidersField where
  | missing
  | nonArray (v : JSVal)
  | array (items : List ProviderInput)
deriving DecidableEq, Repr

/-- The object `window.SEARCH_PARAMS`; a property that is not set reads as `undefined`. -/
structure SearchParams where
  providers : ProvidersField := .missing
  visitType : JSVal := .undefined
  facility : JSVal := .undefined
  reason : JSVal := .undefined
  specialty : JSVal := .undefined
  gender : JSVal := .undefined
  language : JSVal := .undefined
  showOnlyResidents : JSVal := .undefined
  acceptingNewPatient : JSVal := .undefined
  startDate : JSVal := .undefined
  startTime : JSVal := .undefined
  endTime : JSVal := .undefined
  dayPref : JSVal := .undefined
  duration : JSVal := .undefined
  nextApptAfter : JSVal := .undefined
  startAtSameTime : JSVal := .undefined
  excludeBookedSlots : JSVal := .undefined
  excludeBlockedSlots : JSVal := .undefined
  resultSize : JSVal := .undefined
deriving DecidableEq, Repr

/-- One entry of `normalizedProviders`. -/
structure NormalizedProvider where
  provider : JSVal
  vrule : JSVal
  providerName : JSVal
deriving DecidableEq, Repr

/-- A property read `o.k` on an object: `undefined` when the key is missing. -/
def objGet (o : JSObject) (k : String) : JSVal :=
  (o.lookup k).getD .undefined

/-- The arrow function given to `params.providers.map`. -/
def normalizeProvider : ProviderInput → NormalizedProvider
  | .number p => { provider := .num p, vrule := .num 0, providerName := .str "" }
  | .object p =>
    { provider := objGet p "id"
      vrule := if objGet p "vrule" ≠ .undefined then objGet p "vrule" else .num 0
      providerName := jsOr (objGet p "name") (.str "") }

/-- The constant `normalizedProviders`. -/
def normalizedProviders (providers : List ProviderInput) : List NormalizedProvider :=
  providers.map normalizeProvider

/-- The first validation test passes: `providers` is truthy, is an array, and is not empty. -/
def providersValid : ProvidersField → Bool
  | .missing => false
  | .nonArray _ => false
  | .array items => items.length != 0

/-- The entries of `params.providers` when it is an array. -/
def providerItems : ProvidersField → List ProviderInput
  | .array items => items
  | _ => []

/-- The expression `v ? '1' : '0'`. -/
def flagOf (v : JSVal) : JSVal :=
  if v.truthy then .str "1" else .str "0"

/-- The expression `v !== false ? '1' : '0'`. -/
def flagUnlessFalse (v : JSVal) : JSVal :=
  if v ≠ .bool false then .str "1" else .str "0"

/-- The single entry of the array `criteria`. -/
structure Criteria where
  vt : JSVal
  facility : JSVal
  visitStartDate : JSVal
  visitStartTime : JSVal
  visitEndTime : JSVal
  waitTime : JSVal
  sameTimeAppt : JSVal
  reason : JSVal
  specialty : JSVal
  gender : JSVal
  language : JSVal
  showOnlyResidents : JSVal
  acceptingNewPatient : JSVal
  providerandvrule : List NormalizedProvider
deriving DecidableEq, Repr

/-- The request handed to the transport, before serialisation: the criteria entry, the
other form fields (`nSchDuration` is the value given to `String`), the value spliced
into the address as `resultSize`, and the token header when one was found on the page. -/
structure SearchRequest where
  criteria : Criteria
  startDate : JSVal
  startTimefrm : JSVal
  endTimefrm : JSVal
  nSchDuration : JSVal
  dayPref : JSVal
  excludeBookedSlots : JSVal
  excludeBlockedSlots : JSVal
  resultSize : JSVal
  csrfToken : Option String
deriving DecidableEq, Repr

/-- The literal `criteria[0]`. -/
def buildCriteria (params : SearchParams) : Criteria :=
  { vt := params.visitType
    facility := jsOr params.facility (.str "0")
    visitStartDate := jsOr params.startDate (.str "")
    visitStartTime := jsOr params.startTime (.str "")
    visitEndTime := jsOr params.endTime (.str "")
    waitTime := jsOr params.nextApptAfter (.str "0")
    sameTimeAppt := flagOf params.startAtSameTime
    reason := jsOr params.reason (.str "")
    specialty := jsOr params.specialty (.str "")
    gender := jsOr params.gender (.str "")
    language := jsOr params.language (.str "")
    showOnlyResidents := flagOf params.showOnlyResidents
    acceptingNewPatient := flagOf params.acceptingNewPatient
    providerandvrule := normalizedProviders (providerItems params.providers) }

/-- The form data, the address parameter and the token of the request. -/
def buildRequest (params : SearchParams) (csrfToken : Option String) : SearchRequest :=
  { criteria := buildCriteria params
    startDate := jsOr params.startDate (.str "")
    startTimefrm := jsOr params.startTime (.str "")
    endTimefrm := jsOr params.endTime (.str "")
    nSchDuration := jsOr params.duration (.num 15)
    dayPref := jsOr params.dayPref (.str "")
    excludeBookedSlots := flagUnlessFalse params.excludeBookedSlots
    excludeBlockedSlots := flagUnlessFalse params.excludeBlockedSlots
    resultSize := jsOr params.resultSize (.num 100)
    csrfToken := csrfToken }

/-- What the transport delivers: a response with a status and a body (`none` when the
body is not JSON text; a parsed body is an array of groups), or a network error. -/
inductive XhrResult where
  | load (status : Nat) (body : Option (List ApiGroup))
  | networkError
deriving DecidableEq, Repr

/-- How a run of the search script ends: stopped by a validation test (nothing is
returned), failed on the request (the promise rejects), or with the flattened slots. -/
inductive SearchResult where
  | stopped
  | failed
  | slots (slots : List SlotRecord)
deriving DecidableEq, Repr

/-- A run of the search script: the requests sent, in order, and how the run ended. -/
structure SearchRun where
  sent : List SearchRequest
  result : SearchResult
deriving DecidableEq, Repr

/-- The search script: `searchParams` is `window.SEARCH_PARAMS` (`none` when it is not
defined), `csrfToken` the token found on the page, `xhr` the transport. -/
def runSearch (searchParams : Option SearchParams) (csrfToken : Option String)
    (xhr : SearchRequest → XhrResult) : SearchRun :=
  match searchParams with
  | none => { sent := [], result := .stopped }
  | some params =>
    if !providersValid params.providers then { sent := [], result := .stopped }
    else if !params.visitType.truthy then { sent := [], result := .stopped }
    else
      let request := buildRequest params csrfToken
      match xhr request with
      | .load status (some response) =>
        if status = 200 then { sent := [request], result := .slots (flattenResults response) }
        else { sent := [request], result := .failed }
      | .load _ none => { sent := [request], result := .failed }
      | .networkError => { sent := [request], result := .failed }

/-! ## Field resolver (`getValue`, `getValueByLabel`) -/

/-- What the selector `input[name="..."]:checked` built around a name text is: a valid
selector matching the inputs whose `name` attribute is the given string, an invalid
selector (`querySelector` throws a syntax error), or a selector the model does not
decide. -/
inductive NameSelector where
  | matching (name : String)
  | invalid
  | undecided
deriving DecidableEq, Repr

/-- Where the reading of the quoted string stands: in plain text, right after a
backslash, or inside a hexadecimal escape with `n` digits read and value `v`. -/
inductive ScanState where
  | normal
  | escape
  | hex (n v : Nat)
deriving DecidableEq, Repr

/-- The value of a hexadecimal digit. -/
def hexValue (c : Char) : Option Nat :=
  let n := c.toNat
  if 48 ≤ n ∧ n ≤ 57 then some (n - 48)
  else if 97 ≤ n ∧ n ≤ 102 then some (n - 87)
  else if 65 ≤ n ∧ n ≤ 70 then some (n - 55)
  else none

/-- The character of a hexadecimal escape; `none` for zero, a surrogate or a value
beyond the last code point (which the model leaves undecided). -/
def escapedChar (v : Nat) : Option Char :=
  if v = 0 ∨ (55296 ≤ v ∧ v ≤ 57343) ∨ 1114111 < v then none else some (Char.ofNat v)

/-- Line breaks and the null character: inside the quoted string the model does not
decide what they do. -/
def isBreakOrNull (c : Char) : Bool :=
  [0, 10, 12, 13].contains c.toNat

/-- An unescaped double quote inside the name ends the string early.  When another
double quote follows at once (in the name, or the closing quote of the selector) the
attribute selector holds two strings and is invalid; otherwise validity depends on the
text that follows, which the model does not parse. -/
def afterQuote (rest : List Char) : NameSelector :=
  match rest with
  | [] => .invalid
  | d :: _ => if d.toNat = 34 then .invalid else .undecided

/-- Reading of the name text as the content of the quoted string of the selector, with
the escapes of CSS: a backslash followed by one to six hexadecimal digits (and one
optional space or tab) stands for that code point, a backslash followed by another
character stands for that character.  `out` holds the characters read so far, last
first. -/
def scanName : ScanState → List Char → List Char → NameSelector
  | .normal, out, [] => .matching (String.mk out.reverse)
  | .escape, _, [] => .undecided
  | .hex _ v, out, [] =>
    match escapedChar v with
    | some ch => .matching (String.mk (ch :: out).reverse)
    | none => .undecided
  | .normal, out, c :: rest =>
    if c.toNat = 34 then afterQuote rest
    else if c.toNat = 92 then scanName .escape out rest
    else if isBreakOrNull c then .undecided
    else scanName .normal (c :: out) rest
  | .escape, out, c :: rest =>
    match hexValue c with
    | some h => scanName (.hex 1 h) out rest
    | none => if isBreakOrNull c then .undecided else scanName .normal (c :: out) rest
  | .hex n v, out, c :: rest =>
    match hexValue c with
    | some h =>
      if n < 6 then scanName (.hex (n + 1) (16 * v + h)) out rest
      else
        match escapedChar v with
        | some ch => scanName .normal (c :: ch :: out) rest
        | none => .undecided
    | none =>
      match escapedChar v with
      | none => .undecided
      | some ch =>
        if c.toNat = 32 ∨ c.toNat = 9 then scanName .normal (ch :: out) rest
        else if c.toNat = 34 then afterQuote rest
        else if c.toNat = 92 then scanName .escape (ch :: out) rest
        else if isBreakOrNull c then .undecided
        else scanName .normal (c :: ch :: out) rest

/-- The selector `input[name="..."]:checked` built around a name text. -/
def nameSelector (nameText : String) : NameSelector :=
  scanName .normal [] nameText.data

/-- The call `doc.querySelector('input[name="' + name + '"]:checked')`: the first input
in document order whose `name` attribute is the string of the selector and that is a
checked checkbox or radio button. -/
def queryCheckedByName (doc : Document) (nameText : String) :
    Except JSError (Option Located) :=
  match nameSelector nameText with
  | .matching n =>
    .ok (doc.elements.find? (fun l =>
      l.attrs.tagName == "INPUT" && l.attrs.name == some n && l.attrs.checked
        && (inputTypeState l.attrs.typeAttr == "checkbox"
            || inputTypeState l.attrs.typeAttr == "radio")))
  | .invalid => .error .syntaxError
  | .undecided => .error .notModelled

/-- The function `getValue(id)`. -/
def getValue (doc : Document) (id : String) : Except JSError JSVal :=
  match getElementById doc id with
  | none => .ok .null
  | some element =>
    if element.attrs.tagName = "SELECT" then
      .ok (jsOr (.str (selectedText element.attrs)) (.str ""))
    else if element.attrs.type = "checkbox" then
      .ok element.attrs.checkedProperty
    else if element.attrs.type = "radio" then
      match queryCheckedByName doc element.attrs.nameText with
      | .error e => .error e
      | .ok (some checked) => .ok (.str checked.attrs.jsValue)
      | .ok none => .ok .null
    else .ok (jsOr element.attrs.valueProperty (.str ""))

/-- Tags matched by the selector `label, td`. -/
def isLabelLike (a : Attrs) : Bool :=
  a.tagName == "LABEL" || a.tagName == "TD"

/-- Tags matched by the selector `input, select, textarea`. -/
def isControl (a : Attrs) : Bool :=
  a.tagName == "INPUT" || a.tagName == "SELECT" || a.tagName == "TEXTAREA"

/-- The call `x.querySelector('input, select, textarea')` on an element with the given
child nodes: the first matching descendant in document order. -/
def queryControl (kids : List Node) : Option Attrs :=
  ((locateList none kids).find? (fun l => isControl l.attrs)).map (fun l => l.attrs)

/-- The element `labels.find(l => l.textContent.trim().includes(labelText))`. -/
def findLabel (doc : Document) (labelText : String) : Option Located :=
  (doc.elements.filter (fun l => isLabelLike l.attrs)).find?
    (fun l => jsIncludes (jsTrim l.textContent) labelText.data)

/-- The control associated with a label: searched below its next element sibling,
and, failing that, below its parent element. -/
def labelInput (label : Located) : Option Attrs :=
  match label.nextSibling.bind (fun sib => queryControl sib.2) with
  | some input => some input
  | none => label.parentKids.bind queryControl

/-- The function `getValueByLabel(labelText)`. -/
def getValueByLabel (doc : Document) (labelText : String) : JSVal :=
  match findLabel doc labelText with
  | some label =>
    match labelInput label with
    | some input =>
      if input.tagName = "SELECT" then jsOr (.str (selectedText input)) (.str "")
      else jsOr (.str input.jsValue) (.str "")
    | none => .null
  | none => .null

/-- The call `extractAllInputs`' selector
`input[type="text"], input[type="tel"], input[type="email"], select, textarea`
(the `type` attribute is compared without regard to ASCII case). -/
def matchesInputSelector (a : Attrs) : Bool :=
  (a.tagName == "INPUT" &&
    match a.typeAttr with
    | none => false
    | some t => ["text", "tel", "email"].contains (String.mk (asciiLower t.data)))
  || a.tagName == "SELECT" || a.tagName == "TEXTAREA"

/-- The body of the loop of `extractAllInputs`: `if (el.id && el.value) inputs[el.id] = el.value`. -/
def collectInput (inputs : JSObject) (el : Located) : JSObject :=
  if !el.attrs.id.data.isEmpty && !el.attrs.jsValue.data.isEmpty
  then objSet inputs el.attrs.id (.str el.attrs.jsValue)
  else inputs

/-- The function `extractAllInputs`. -/
def extractAllInputs (doc : Document) : JSObject :=
  (doc.elements.filter (fun l => matchesInputSelector l.attrs)).foldl collectInput []

/-! ## Record extractor: the schema of `extractPatientDetails` -/

/-- The expressions that appear on the right of a key in the section literals. -/
inductive FieldExpr where
  | getValue (id : String)
  | getValueByLabel (labelText : String)
  | or (a b : FieldExpr)
  | strictEq (a : FieldExpr) (s : String)
  | textIncludes (id : String) (needle : String)
deriving DecidableEq, Repr

/-- Evaluation of a field expression on a page: `a || b` evaluates `b` only when the
value of `a` is falsy, `a === 's'` compares with a string literal, and `textIncludes`
is `doc.getElementById(id)?.textContent.includes(needle)`. -/
def evalField (doc : Document) : FieldExpr → Except JSError JSVal
  | .getValue id => getValue doc id
  | .getValueByLabel labelText => .ok (getValueByLabel doc labelText)
  | .or a b =>
    match evalField doc a with
    | .error e => .error e
    | .ok v => if v.truthy then .ok v else evalField doc b
  | .strictEq a s =>
    match evalField doc a with
    | .error e => .error e
    | .ok v => .ok (.bool (decide (v = .str s)))
  | .textIncludes id needle =>
    match getElementById doc id with
    | none => .ok .undefined
    | some el => .ok (.bool (jsIncludes el.textContent needle.data))

/-- A key of a section literal: a leaf expression or a nested object literal. -/
inductive FieldSpec where
  | leaf (e : FieldExpr)
  | group (fields : List (String × FieldExpr))
deriving Repr

/-- The value of a key of a section: a leaf value or a nested object. -/
inductive FieldVal where
  | leaf (v : JSVal)
  | group (o : JSObject)
deriving DecidableEq, Repr

/-- A section literal and its value. -/
abbrev SectionSpec := List (String × FieldSpec)

/-- The value of a section; the empty list is the empty object. -/
abbrev SectionVal := List (String × FieldVal)

/-- Evaluation of a flat object literal, key by key in source order. -/
def evalFields (doc : Document) : List (String × FieldExpr) → Except JSError JSObject
  | [] => .ok []
  | (k, e) :: rest =>
    match evalField doc e with
    | .error err => .error err
    | .ok v =>
      match evalFields doc rest with
      | .error err => .error err
      | .ok o => .ok ((k, v) :: o)

/-- Evaluation of a section literal, key by key in source order. -/
def evalSection (doc : Document) : SectionSpec → Except JSError SectionVal
  | [] => .ok []
  | (k, .leaf e) :: rest =>
    match evalField doc e with
    | .error err => .error err
    | .ok v =>
      match evalSection doc rest with
      | .error err => .error err
      | .ok o => .ok ((k, .leaf v) :: o)
  | (k, .group fs) :: rest =>
    match evalFields doc fs with
    | .error err => .error err
    | .ok g =>
      match evalSection doc rest with
      | .error err => .error err
      | .ok o => .ok ((k, .group g) :: o)

/-! The thirteen section literals, in the order in which the `try` block assigns them.
In `contactInfo` the two constants `mobilePhone` and `phoneType` are evaluated just
before the literal whose first two keys they fill, which is the order written here. -/

/-- The literal assigned to `demographicData.patientInfo`. -/
def patientInfoSpec : SectionSpec :=
  [("patientId", .leaf (.getValue "intPatient_ID")),
   ("accountNumber", .leaf (.getValue "TxtVAcc")),
   ("chartNumber", .leaf (.or (.getValue "txtChartNo") (.getValueByLabel "Chart No."))),
   ("title", .leaf (.or (.getValue "cmbVTitle") (.getValue "cmbTitle"))),
   ("firstName", .leaf (.getValue "txtVFNAME")),
   ("middleName", .leaf (.getValue "txtVMNAME")),
   ("lastName", .leaf (.getValue "txtVLNAME")),
   ("suffix", .leaf (.or (.getValue "cmbSuffix") (.getValue "cmbSupportSuffix"))),
   ("preferredName", .leaf (.getValue "txtVPREFNAME")),
   ("pronoun", .leaf (.getValue "cmbPronoun")),
   ("dateOfBirth", .leaf (.getValue "txtDDOB")),
   ("age", .leaf (.or (.getValue "txtAge") (.getValue "patAgeSupportContact"))),
   ("ssn", .leaf (.getValue "txtVSSN")),
   ("gender", .leaf (.or (.getValue "cmbVSEX") (.getValue "cmbSEX"))),
   ("genderIdentity", .leaf (.getValue "cmbGenderIdentity")),
   ("sexualOrientation", .leaf (.getValue "cmbSexualOrientation")),
   ("maritalStatus", .leaf (.or (.or (.getValue "cmbvstatus") (.getValue "cmbMaritalStatus")) (.getValue "cmbVSTATUS")))]

/-- The literal assigned to `demographicData.addresses`. -/
def addressesSpec : SectionSpec :=
  [("current", .group
     [("address1", .or (.getValue "txtvaddress1") (.getValue "txtVAddress1")),
      ("address2", .or (.getValue "txtvaddress2") (.getValue "txtVAddress2")),
      ("city", .or (.getValue "txtvcity") (.getValue "txtVCity")),
      ("state", .or (.getValue "txtVSTATE") (.getValue "cmbState")),
      ("zip", .or (.or (.getValue "txtVZIP") (.getValue "SelectZipPatient")) (.getValue "txtZip")),
      ("county", .getValue "txtVCounty"),
      ("country", .or (.getValue "ddlCountry") (.getValue "cmbCountry"))]),
   ("alternate", .group
     [("sameAsAbove", .or (.getValue "chkMailingAddress") (.getValue "chkSameAsAbove")),
      ("address1", .or (.getValue "txtMailingAddress1") (.getValue "txtAlternateAddress1")),
      ("address2", .or (.getValue "txtMailingAddress2") (.getValue "txtAlternateAddress2")),
      ("city", .or (.getValue "txtMailingCity") (.getValue "txtAlternateCity")),
      ("state", .or (.getValue "cmbMailingState") (.getValue "cmbAlternateState")),
      ("zip", .or (.getValue "txtMailingZipCode") (.getValue "txtAlternateZip")),
      ("county", .or (.getValue "txtMailingCounty") (.getValue "txtAlternateCounty")),
      ("country", .or (.or (.getValue "ddlPrtCountry") (.getValue "cmbMailingCountry")) (.getValue "cmbAlternateCountry"))])]

/-- The literal assigned to `demographicData.contactInfo`. -/
def contactInfoSpec : SectionSpec :=
  [("mobile", .leaf (.or (.or (.getValue "txtVPHONE") (.getValue "txtCPhone")) (.getValue "txtMobile"))),
   ("phoneType", .leaf (.or (.getValue "cmbPhoneTypes") (.getValue "cmbPhoneTypesX"))),
   ("homePhone", .leaf (.getValue "txtVHPHONE")),
   ("workPhone", .leaf (.getValue "txtVWPHONE")),
   ("email", .leaf (.getValue "txtVEmail")),
   ("preferredContactMethod", .leaf (.getValue "cmbPreferredContact")),
   ("textViaEmail", .leaf (.getValue "txtTextViaEmail")),
   ("otherContacts", .leaf (.or (.getValue "txtOtherContacts") (.getValue "Txt_1_0")))]

/-- The literal assigned to `demographicData.providers`. -/
def providersSpec : SectionSpec :=
  [("location", .leaf (.getValue "cmbILOCID")),
   ("primaryProvider", .leaf (.or (.getValue "PrimaryCareText") (.getValue "TxtRefPRVName"))),
   ("primaryCarePhone", .leaf (.getValue "PrimaryCarePhone")),
   ("primaryCareSpecialty", .leaf (.getValue "cmbSpecprimary")),
   ("referringProvider", .leaf (.or (.getValue "txtReferringProvider") (.getValue "cmbIPRVID"))),
   ("billingProvider", .leaf (.getValue "cmbBilling_Provider")),
   ("renderingProvider", .leaf (.getValue "cmbIPRVID")),
   ("referralSource", .leaf (.or (.getValue "cmbFindUS") (.getValue "cmbReferralSource"))),
   ("sourceDetails", .leaf (.getValue "txtSourceDetails")),
   ("agency", .leaf (.getValue "cmbAgency"))]

/-- The literal assigned to `demographicData.demographics`. -/
def demographicsSpec : SectionSpec :=
  [("race", .leaf (.or (.or (.getValue "txtRace_txtField") (.getValue "ctrltxtRace")) (.getValue "hdnRaceName"))),
   ("ethnicity", .leaf (.or (.getValue "ddlEthnicity") (.getValue "cmbEthnicity"))),
   ("language", .leaf (.or (.or (.getValue "txtLanguage_txtField") (.getValue "ctrltxtLanguage")) (.getValue "hdnMultipleLanguages"))),
   ("limitedEnglishProficiency", .leaf (.getValue "chkLimitedEnglish")),
   ("religion", .leaf (.or (.getValue "ddlReligion") (.getValue "cmbReligion"))),
   ("education", .leaf (.getValue "ddlEducation"))]

/-- The literal assigned to `demographicData.employment`. -/
def employmentSpec : SectionSpec :=
  [("workStatus", .leaf (.or (.or (.getValue "cmbVWSTATUS") (.getValue "cmbEmploymentStatus")) (.getValue "cmbWorkStatus"))),
   ("employer", .leaf (.getValue "txtEmployer")),
   ("occupation", .leaf (.getValue "txtOccupation")),
   ("studentStatus", .leaf (.getValue "cmbStudentStatus"))]

/-- The literal assigned to `demographicData.insurance`. -/
def insuranceSpec : SectionSpec :=
  [("primary", .group
     [("insuranceName", .getValue "txtPInsuranceName"),
      ("policyNumber", .getValue "txtVIDNum"),
      ("groupNumber", .getValue "txtVGroupNum"),
      ("subscriberId", .getValue "txtPSubscriberId"),
      ("relationToInsured", .getValue "cmbRelationship"),
      ("planId", .getValue "hdniPlanId")]),
   ("secondary", .group
     [("insuranceName", .getValue "txtSInsuranceName"),
      ("policyNumber", .getValue "txtSecVIDNUM"),
      ("groupNumber", .getValue "txtSecVGroupNum"),
      ("subscriberId", .getValue "txtSSubscriberId"),
      ("relationToInsured", .getValue "cmbSecRelationship")])]

/-- The literal assigned to `demographicData.emergencyContact`. -/
def emergencyContactSpec : SectionSpec :=
  [("name", .leaf (.getValue "txtEmergencyContactName")),
   ("relationship", .leaf (.getValue "cmbEmergencyRelationship")),
   ("phone", .leaf (.getValue "txtEmergencyPhone")),
   ("address", .leaf (.getValue "txtEmergencyAddress"))]

/-- The literal assigned to `demographicData.clinicalInfo`. -/
def clinicalInfoSpec : SectionSpec :=
  [("isDeceased", .leaf (.getValue "chkDeceased")),
   ("deceasedDate", .leaf (.getValue "txtDeceasedDate")),
   ("isVIP", .leaf (.getValue "chkVIP")),
   ("isTestPatient", .leaf (.getValue "hdnIsTestPatient")),
   ("comments", .leaf (.getValue "txtVComments")),
   ("isDaiseyEnrolled", .leaf (.textIncludes "lnkDaisey" "Enrolled"))]

/-- The literal assigned to `demographicData.previousNames`. -/
def previousNamesSpec : SectionSpec :=
  [("firstName", .leaf (.or (.getValueByLabel "Previous") (.getValue "txtPreviousFirstName"))),
   ("lastName", .leaf (.getValue "txtPreviousLastName"))]

/-- The literal assigned to `demographicData.mothersMaiden`. -/
def mothersMaidenSpec : SectionSpec :=
  [("firstName", .leaf (.getValue "txtMotherFirstName")),
   ("lastName", .leaf (.getValue "txtMotherLastName"))]

/-- The literal assigned to `demographicData.commonWell`. -/
def commonWellSpec : SectionSpec :=
  [("enabled", .leaf (.or (.getValue "toggleCommonWellHeaderButton") (.getValue "patientToggleCheckbox"))),
   ("consentId", .leaf (.getValue "hdnConsentID")),
   ("isPersonFlowCompleted", .leaf (.getValue "hdnCWPersonFlowCompleted")),
   ("isBackloadSent", .leaf (.getValue "isCommonWellBackloadSent"))]

/-- The literal assigned to `demographicData.supportContact`. -/
def supportContactSpec : SectionSpec :=
  [("isRequired", .leaf (.strictEq (.getValue "isMdnSupportContact") "1")),
   ("title", .leaf (.getValue "cmbSupportTitle")),
   ("suffix", .leaf (.getValue "cmbSupportSuffix")),
   ("isTitleType", .leaf (.getValue "isTitleSupportContact"))]

/-- The section assignments of the `try` block, in source order. -/
def schema : List (String × SectionSpec) :=
  [("patientInfo", patientInfoSpec),
   ("addresses", addressesSpec),
   ("contactInfo", contactInfoSpec),
   ("providers", providersSpec),
   ("demographics", demographicsSpec),
   ("employment", employmentSpec),
   ("insurance", insuranceSpec),
   ("emergencyContact", emergencyContactSpec),
   ("clinicalInfo", clinicalInfoSpec),
   ("previousNames", previousNamesSpec),
   ("mothersMaiden", mothersMaidenSpec),
   ("commonWell", commonWellSpec),
   ("supportContact", supportContactSpec)]

/-- The object `demographicData`: its sections by name, in the order of its literal. -/
abbrev DemographicData := List (String × SectionVal)

/-- The initial literal of `demographicData`: every section is the empty object. -/
def emptyDemographicData : DemographicData :=
  [("patientInfo", []), ("addresses", []), ("contactInfo", []), ("insurance", []),
   ("demographics", []), ("providers", []), ("emergencyContact", []), ("employment", []),
   ("clinicalInfo", []), ("previousNames", []), ("mothersMaiden", []), ("commonWell", []),
   ("supportContact", [])]

/-- The assignment `demographicData[name] = v`. -/
def assignSection : DemographicData → String → SectionVal → DemographicData
  | [], name, v => [(name, v)]
  | (n0, v0) :: rest, name, v =>
    if n0 = name then (n0, v) :: rest else (n0, v0) :: assignSection rest name v

/-- The `try` block: sections are evaluated and assigned one after the other; the first
exception leaves the `try` block, and the `catch` only logs it. -/
def runSections (doc : Document) : List (String × SectionSpec) → DemographicData → DemographicData
  | [], d => d
  | (name, spec) :: rest, d =>
    match evalSection doc spec with
    | .error _ => d
    | .ok v => runSections doc rest (assignSection d name v)

/-- The value of `demographicData` after the `try`/`catch` of `extractPatientDetails`. -/
def extractedData (doc : Document) : DemographicData :=
  runSections doc schema emptyDemographicData

/-- The section of a record by name. -/
def sectionOf (d : DemographicData) (name : String) : Option SectionVal :=
  d.lookup name

/-- The leaf of a section value under `key`, or under `group.key` for a nested object;
`none` when the key is missing. -/
def leafAt (sec : SectionVal) (path : List String) : Option JSVal :=
  match path with
  | [k] =>
    match sec.lookup k with
    | some (.leaf v) => some v
    | _ => none
  | [g, k] =>
    match sec.lookup g with
    | some (.group o) => o.lookup k
    | _ => none
  | _ => none

/-! ## Correlation store (`sessionStorage`, `JSON.stringify`, `JSON.parse`)

`JSON.stringify` and `JSON.parse` are built-ins of the platform.  They are modelled on
the data the text denotes rather than on its characters: the text of an object lists
its members, a member whose value is `undefined` is not written, and parsing a text
gives back the members that were written. -/

/-- A primitive value as written in JSON text. -/
inductive JsonValue where
  | null
  | bool (b : Bool)
  | num (n : Int)
  | str (s : String)
deriving DecidableEq, Repr

/-- A stored string: the JSON text of a flat object, the JSON text of an array of flat
objects, or a string that is not JSON text. -/
inductive JsonText where
  | object (members : List (String × JsonValue))
  | array (items : List (List (String × JsonValue)))
  | unparsable (s : String)
deriving DecidableEq, Repr

/-- What `JSON.parse` returns for the texts of the model. -/
inductive Parsed where
  | object (o : JSObject)
  | array (os : List JSObject)
deriving DecidableEq, Repr

/-- Serialisation of a property value; `undefined` has no JSON form. -/
def jsonOfVal : JSVal → Option JsonValue
  | .undefined => none
  | .null => some .null
  | .bool b => some (.bool b)
  | .num n => some (.num n)
  | .str s => some (.str s)

/-- The value denoted by a JSON primitive. -/
def valOfJson : JsonValue → JSVal
  | .null => .null
  | .bool b => .bool b
  | .num n => .num n
  | .str s => .str s

/-- Members written for an object: properties whose value is `undefined` are omitted. -/
def jsonMembers (o : JSObject) : List (String × JsonValue) :=
  o.filterMap (fun kv => (jsonOfVal kv.2).map (fun j => (kv.1, j)))

/-- The call `JSON.stringify(o)` on a flat object. -/
def JSON.stringify (o : JSObject) : JsonText :=
  .object (jsonMembers o)

/-- The call `JSON.stringify(os)` on an array of flat objects. -/
def JSON.stringifyArray (os : List JSObject) : JsonText :=
  .array (os.map jsonMembers)

/-- The call `JSON.parse(text)`; it throws on a string that is not JSON text. -/
def JSON.parse : JsonText → Except JSError Parsed
  | .object ms => .ok (.object (ms.map (fun kv => (kv.1, valOfJson kv.2))))
  | .array items => .ok (.array (items.map (fun ms => ms.map (fun kv => (kv.1, valOfJson kv.2)))))
  | .unparsable _ => .error .syntaxError

/-- The session store: string keys to stored strings. -/
abbrev Storage := List (String × JsonText)

/-- The call `sessionStorage.setItem(key, text)`. -/
def setItem : Storage → String → JsonText → Storage
  | [], k, t => [(k, t)]
  | (k0, t0) :: rest, k, t =>
    if k0 = k then (k0, t) :: rest else (k0, t0) :: setItem rest k t

/-- The call `sessionStorage.getItem(key)`; `none` is `null`. -/
def getItem (store : Storage) (k : String) : Option JsonText :=
  store.lookup k

/-- Whether a stored string is truthy (non-empty); JSON text is never empty. -/
def JsonText.truthy : JsonText → Bool
  | .unparsable s => !s.data.isEmpty
  | _ => true

/-- The object literal pushed by the listing extractor, as a JavaScript object. -/
def PatientTuple.toObject (t : PatientTuple) : JSObject :=
  let opt : Option String → JSVal := fun o =>
    match o with
    | some s => .str s
    | none => .undefined
  [("index", .num t.index), ("hiddenPatientId", .str t.hiddenPatientId),
   ("accountNumber", opt t.accountNumber), ("patientName", .str t.patientName),
   ("ssn", opt t.ssn), ("phone", opt t.phone), ("dob", opt t.dob), ("chart", opt t.chart),
   ("patientBalance", opt t.patientBalance), ("planBalance", opt t.planBalance)]

/-- The statement `sessionStorage.setItem('curemd_current_patient', JSON.stringify(patient))`. -/
def storeCurrentPatient (store : Storage) (patient : PatientTuple) : Storage :=
  setItem store "curemd_current_patient" (JSON.stringify patient.toObject)

/-- The read of `searchContext` in `extractPatientDetails`: `null` (here `none`) when the
item is missing, empty, or cannot be parsed. -/
def readSearchContext (store : Storage) : Option Parsed :=
  match getItem store "curemd_current_patient" with
  | none => none
  | some storedPatient =>
    if storedPatient.truthy then
      match JSON.parse storedPatient with
      | .ok v => some v
      | .error _ => none
    else none

/-- What the page environment supplies to `extractPatientDetails` besides the document:
the clock, the address of the page and the session store. -/
structure Env where
  now : String
  pageUrl : String
  sessionStorage : Storage

/-- The `metadata` object of the result. -/
structure Metadata where
  extractedAt : String
  patientId : JSVal
  accountNumber : JSVal
  pageUrl : String
deriving DecidableEq, Repr

/-- The object returned by `extractPatientDetails`. -/
structure DetailsResult where
  extractedData : DemographicData
  rawInputs : JSObject
  searchContext : Option Parsed
  metadata : Metadata
deriving DecidableEq, Repr

/-- The function `extractPatientDetails`.  The two `getValue` calls of `metadata` are
outside every `try` block, so an exception there leaves the function. -/
def extractPatientDetails (env : Env) (doc : Document) : Except JSError DetailsResult :=
  let demographicData := extractedData doc
  let allInputs := extractAllInputs doc
  let searchContext := readSearchContext env.sessionStorage
  match getValue doc "intPatient_ID" with
  | .error e => .error e
  | .ok patientId =>
    match getValue doc "TxtVAcc" with
    | .error e => .error e
    | .ok accountNumber =>
      .ok { extractedData := demographicData
            rawInputs := allInputs
            searchContext := searchContext
            metadata :=
              { extractedAt := env.now
                patientId := patientId
                accountNumber := accountNumber
                pageUrl := env.pageUrl } }

/-! ## Opening a patient from the listing (`window.openPatient`) -/

/-- The element `patients[index - 1]`: `undefined` (here `none`) outside the array. -/
def patientAt (patients : List PatientTuple) (index : Int) : Option PatientTuple :=
  if index - 1 < 0 then none else patients.get? (index - 1).toNat

/-- The function `window.openPatient(index)` the search page installs for the listing
`patients`: the value it returns (`none` is `undefined`) and the session store after the
call.  With exactly one tuple only the index 1 is accepted; otherwise the tuple at
position `index - 1` is opened when there is one. -/
def openPatient (patients : List PatientTuple) (store : Storage) (index : Int) :
    Option PatientTuple × Storage :=
  match patients with
  | [patient] =>
    if index ≠ 1 then (none, store)
    else (some patient, storeCurrentPatient store patient)
  | _ =>
    match patientAt patients index with
    | none => (none, store)
    | some patient => (some patient, storeCurrentPatient store patient)

/-! ## Vocabulary used to state the properties -/

/-- The digit string captured from the navigation reference of a row; `none` when the
row has no `href` or the reference fails the pattern. -/
def rowId (l : Located) : Option String :=
  l.attrs.href.bind (fun href => (matchLoadPatient href.data).map String.mk)

/-- The navigation reference of a row matches `LoadPatient(<digits>,`: somewhere in it
stands the literal text followed by one or more digits and a comma. -/
def hrefMatches (l : Located) : Prop :=
  ∃ (href : String) (pre digits post : List Char),
    l.attrs.href = some href
      ∧ href.data = pre ++ "LoadPatient(".data ++ digits ++ Char.ofNat 44 :: post
      ∧ digits ≠ [] ∧ ∀ c ∈ digits, c.isDigit = true

/-- The leaves of a section literal with their key paths. -/
def sectionLeaves : SectionSpec → List (List String × FieldExpr)
  | [] => []
  | (k, .leaf e) :: rest => ([k], e) :: sectionLeaves rest
  | (k, .group fs) :: rest => fs.map (fun kv => ([k, kv.1], kv.2)) ++ sectionLeaves rest

/-- Every leaf of the schema: section name, key path, expression. -/
def schemaLeaves : List (String × List String × FieldExpr) :=
  schema.flatMap (fun s => (sectionLeaves s.2).map (fun l => (s.1, l.1, l.2)))

/-- The leaf of a record under a section name and a key path. -/
def recordLeaf (d : DemographicData) (sec : String) (path : List String) : Option JSVal :=
  (sectionOf d sec).bind (fun s => leafAt s path)

/-- A candidate chain: `getValue` and `getValueByLabel` calls joined by `||`. -/
def FieldExpr.isChain : FieldExpr → Bool
  | .getValue _ => true
  | .getValueByLabel _ => true
  | .or a b => a.isChain && b.isChain
  | .strictEq _ _ => false
  | .textIncludes _ _ => false

/-- No candidate locator of the chain is present on the page: no element has any of the
ids and no label or table cell contains any of the phrases. -/
def FieldExpr.absent (doc : Document) : FieldExpr → Bool
  | .getValue id => (getElementById doc id).isNone
  | .getValueByLabel labelText => (findLabel doc labelText).isNone
  | .or a b => a.absent doc && b.absent doc
  | .strictEq a _ => a.absent doc
  | .textIncludes id _ => (getElementById doc id).isNone

/-- The keys of a section literal are pairwise distinct, at the top level and inside
each nested literal. -/
def specKeysOk (spec : SectionSpec) : Bool :=
  decide (spec.map (fun kv => kv.1)).Nodup &&
  spec.all (fun kv =>
    match kv.2 with
    | .leaf _ => true
    | .group fs => decide (fs.map (fun f => f.1)).Nodup)

/-- Every auxiliary field of the tuple is present (every sibling element of the row
existed). -/
def PatientTuple.complete (t : PatientTuple) : Bool :=
  t.accountNumber.isSome && t.ssn.isSome && t.phone.isSome && t.dob.isSome
    && t.chart.isSome && t.patientBalance.isSome && t.planBalance.isSome

/-- The properties of an object whose value is not `undefined`. -/
def definedProps (o : JSObject) : JSObject :=
  o.filter (fun kv => decide (kv.2 ≠ .undefined))

/-- A control that `extractAllInputs` collects: matched by its selector, with a non-empty
id and a non-empty value. -/
def collected (a : Attrs) : Bool :=
  matchesInputSelector a && !a.id.data.isEmpty && !a.jsValue.data.isEmpty

/-- A free-text control: an input or a text area whose `type` is neither checkbox nor
radio (its `value` is then a string). -/
def isFreeText (a : Attrs) : Bool :=
  (a.tagName == "INPUT" || a.tagName == "TEXTAREA")
    && decide (a.type ≠ "checkbox") && decide (a.type ≠ "radio") && a.numberValue.isNone

/-- The selected option of a selection control, when it has one. -/
def selectedOption (a : Attrs) : Option SelectOption :=
  if a.selectedIndex < 0 then none else a.options.get? a.selectedIndex.toNat

/-- Every section of the schema evaluates without an exception on the page. -/
def sectionsOk (doc : Document) : Bool :=
  schema.all (fun s => (evalSection doc s.2).isOk)

/-! ## Concrete pages and responses used as test inputs -/

/-- The response of the flattening example: group A (duration 15) with one result that
has no duration of its own, group B (duration 30) with one result whose own duration is 45. -/
def twoGroupResponse : List ApiGroup :=
  [ { results := some [{ date := .str "01/02/2026" }], duration := .num 15 },
    { results := some [{ date := .str "01/03/2026", slotduration := .num 45 }],
      duration := .num 30 } ]

/-- A text input with the given id and value. -/
def textInput (id value : String) : Node :=
  .elem { tagName := "INPUT", id := id, typeAttr := some "text", value := value } []

/-- A details page on which the control `txtAge` is a radio button whose name is a single
double quote, next to an ordinary e-mail field. -/
def radioPage : Document :=
  [.elem { tagName := "FORM" }
    [ textInput "txtVFNAME" "Ann",
      .elem { tagName := "INPUT", id := "txtAge", typeAttr := some "radio",
              name := some (String.singleton (Char.ofNat 34)), value := "on" } [],
      textInput "txtVEmail" "ann@example.org" ]]

/-- A details page on which the control `txtVEmail` of the third section is such a radio
button, while the first two sections resolve normally. -/
def lateRadioPage : Document :=
  [.elem { tagName := "FORM" }
    [ textInput "txtVFNAME" "Ann",
      .elem { tagName := "INPUT", id := "txtVEmail", typeAttr := some "radio",
              name := some (String.singleton (Char.ofNat 34)), value := "on" } [],
      textInput "txtEmployer" "Acme" ]]

/-- A details page on which the control `txtVEmail` is a radio button whose name holds a
backslash escape (the letter a, a backslash, the digits 6 and 2): the selector built
from it is valid and matches the inputs named ab, of which one is checked. -/
def escapedRadioPage : Document :=
  [.elem { tagName := "FORM" }
    [ textInput "txtVFNAME" "Ann",
      .elem { tagName := "INPUT", id := "txtVEmail", typeAttr := some "radio",
              name := some (String.mk [Char.ofNat 97, Char.ofNat 92, Char.ofNat 54,
                                       Char.ofNat 50]),
              value := "on", checked := true } [],
      .elem { tagName := "INPUT", id := "optAb", typeAttr := some "radio",
              name := some "ab", value := "yes", checked := true } [],
      textInput "txtEmployer" "Acme" ]]

/-- A details page with three schema fields present and nothing else. -/
def sparsePage : Document :=
  [.elem { tagName := "FORM" }
    [ textInput "txtVFNAME" "Ann", textInput "txtVLNAME" "Lee",
      textInput "txtDDOB" "01/02/1990" ]]

/-- A result row: the anchor and, optionally, its account and date-of-birth spans. -/
def resultRow (suffix href name : String) (spans : Bool) : Node :=
  .elem { tagName := "TR" }
    ([.elem { tagName := "TD" }
        [.elem { tagName := "A", id := "anchorPatientName" ++ suffix, href := some href }
          [.text name]]] ++
     (if spans then
        [.elem { tagName := "TD" }
           [.elem { tagName := "SPAN", id := "spanPatientAccount" ++ suffix } [.text " A-17 "]],
         .elem { tagName := "TD" }
           [.elem { tagName := "SPAN", id := "spanPatientSSN" ++ suffix } [.text "xxx-xx-1234"]],
         .elem { tagName := "TD" }
           [.elem { tagName := "SPAN", id := "spanPatientPhone" ++ suffix } [.text "555-0100"]],
         .elem { tagName := "TD" }
           [.elem { tagName := "SPAN", id := "spanPatientDOB" ++ suffix } [.text "01/02/1990"]],
         .elem { tagName := "TD" }
           [.elem { tagName := "SPAN", id := "spanPatientLocationOrChart" ++ suffix }
             [.text "Main"]],
         .elem { tagName := "TD" }
           [.elem { tagName := "SPAN", id := "spanPatientBalance" ++ suffix } [.text "0.00"]],
         .elem { tagName := "TD" }
           [.elem { tagName := "SPAN", id := "spanPatientPlan" ++ suffix } [.text "0.00"]]]
      else []))

/-- A listing with a malformed row between two well-formed rows. -/
def mixedListing : Document :=
  [.elem { tagName := "TABLE" }
    [ resultRow "1" "javascript:LoadPatient(1001, 0);" " Doe, Jane " true,
      resultRow "2" "javascript:void(0)" "Roe, Rick" true,
      resultRow "3" "javascript:LoadPatient(1003, 0);" "Poe, Pat" true ]]

/-- A page without any result row. -/
def noRowsListing : Document :=
  [.elem { tagName := "TABLE" } [.elem { tagName := "TR" } [.elem { tagName := "TD" }
    [.text "No records"]]]]

/-- A page whose only row has a navigation reference that fails the id pattern. -/
def malformedListing : Document :=
  [.elem { tagName := "TABLE" }
    [ resultRow "1" "javascript:void(0)" "Roe, Rick" true ]]

/-- A listing whose single well-formed row has none of the sibling spans. -/
def bareListing : Document :=
  [.elem { tagName := "TABLE" }
    [ resultRow "1" "javascript:LoadPatient(1001, 0);" "Doe, Jane" false ]]

/-- A listing whose single well-formed row has all of the sibling spans. -/
def fullListing : Document :=
  [.elem { tagName := "TABLE" }
    [ resultRow "1" "javascript:LoadPatient(1001, 0);" "Doe, Jane" true ]]

/-- A details page with a populated hidden input, a populated date input, a populated
text input without an id, and one populated text input with an id. -/
def hiddenInputPage : Document :=
  [.elem { tagName := "FORM" }
    [ .elem { tagName := "INPUT", id := "hdnRaceName", typeAttr := some "hidden",
              value := "White" } [],
      .elem { tagName := "INPUT", id := "txtDDOB", typeAttr := some "date",
              value := "1990-01-02" } [],
      .elem { tagName := "INPUT", typeAttr := some "text", value := "orphan" } [],
      textInput "txtVFNAME" "Ann" ]]

/-- A details page where both the label lookup for the phrase Previous and the control
`txtPreviousFirstName` yield a value, and likewise for the chart number. -/
def labelPage : Document :=
  [.elem { tagName := "TABLE" }
    [.elem { tagName := "TR" }
      [ .elem { tagName := "TD" } [.text "Previous Name"],
        .elem { tagName := "TD" } [textInput "prevAny" "Old"] ],
     .elem { tagName := "TR" }
      [ .elem { tagName := "TD" } [.text "First"],
        .elem { tagName := "TD" } [textInput "txtPreviousFirstName" "New"] ],
     .elem { tagName := "TR" }
      [ .elem { tagName := "TD" } [.text "Chart No."],
        .elem { tagName := "TD" } [textInput "chartAny" "L-1"] ],
     .elem { tagName := "TR" }
      [ .elem { tagName := "TD" } [.text "Chart"],
        .elem { tagName := "TD" } [textInput "txtChartNo" "C-9"] ]]]

/-- A details page where `txtvaddress1` is present but blank and `txtVAddress1` is missing. -/
def blankAddressPage : Document :=
  [.elem { tagName := "FORM" } [ textInput "txtvaddress1" "", textInput "txtVCounty" "" ]]

/-- The environment used in the examples. -/
def sampleEnv : Env :=
  { now := "2026-01-18T00:00:00.000Z", pageUrl := "https://example.org/datPatient.aspx",
    sessionStorage := [] }

/-- A details page with a selection control whose options have codes that differ from
their displayed texts; the second option is selected.  The control has an id and sits in
the table cell next to the cell with its label. -/
def selectPage : Document :=
  [.elem { tagName := "TABLE" }
    [.elem { tagName := "TR" }
      [ .elem { tagName := "TD" } [.text " Gender "],
        .elem { tagName := "TD" }
          [.elem { tagName := "SELECT", id := "cmbVSEX",
                   options := [{ text := "", value := "" }, { text := "Female", value := "F" },
                               { text := "Male", value := "M" }],
                   selectedIndex := 1 } []] ]]]

/-- A configuration that passes validation: two providers and a visit type. -/
def goodParams : SearchParams :=
  { providers := .array [.number 123456, .object [("id", .num 789012), ("name", .str "Dr A")]],
    visitType := .str "NEW" }

/-- A transport that answers every request with the two-group response. -/
def sampleXhr : SearchRequest → XhrResult :=
  fun _ => .load 200 (some twoGroupResponse)

/-- A listing in which the first row is malformed and the second is well-formed. -/
def skippedFirstListing : Document :=
  [.elem { tagName := "TABLE" }
    [ resultRow "1" "javascript:void(0)" "Roe, Rick" true,
      resultRow "2" "javascript:LoadPatient(1002, 0);" "Doe, Jane" true ]]

/-! ## Properties -/

/-- The inner loop appends the records of the group in order. -/
theorem pushResults_eq (g : ApiGroup) (rs : List ApiSlot) (acc : List SlotRecord) :
    pushResults g acc rs = acc ++ rs.map (makeSlot g) := by
  induction rs generalizing acc with
  | nil => simp [pushResults]
  | cons r rs ih =>
    have h := ih (acc ++ [makeSlot g r])
    simp only [pushResults, List.foldl_cons] at h ⊢
    rw [h]
    simp

/-- One step of the outer loop appends the records of that group. -/
theorem flattenGroup_eq (acc : List SlotRecord) (g : ApiGroup) :
    flattenGroup acc g = acc ++ (g.results.getD []).map (makeSlot g) := by
  unfold flattenGroup
  cases g.results with
  | none => simp
  | some rs => simp [pushResults_eq]

/-- The outer loop from any accumulator. -/
theorem foldl_flattenGroup (resp : List ApiGroup) (acc : List SlotRecord) :
    resp.foldl flattenGroup acc
      = acc ++ resp.flatMap (fun g => (g.results.getD []).map (makeSlot g)) := by
  induction resp generalizing acc with
  | nil => simp
  | cons g gs ih =>
    rw [List.foldl_cons, ih, flattenGroup_eq, List.flatMap_cons, List.append_assoc]

/-- Flattening is the concatenation, in input order, of the records of each group. -/
theorem flattenResults_eq_flatMap (response : List ApiGroup) :
    flattenResults response
      = response.flatMap (fun g => (g.results.getD []).map (makeSlot g)) := by
  simp [flattenResults, foldl_flattenGroup]

/-- C1 (as stated, refuted): on the two-group example the emitted durations are 15 and 30,
not 15 and 45: the second result carries its own duration 45 but receives the group value. -/
theorem C1_counterexample :
    (flattenResults twoGroupResponse).map SlotRecord.duration = [.num 15, .num 30]
      ∧ (flattenResults twoGroupResponse).map SlotRecord.duration ≠ [.num 15, .num 45] := by
  decide

/-- C1 (amended): for every response, the emitted durations are, in input order, the
duration of the group whenever that value is truthy, and the own duration of the result
(slotduration) only when the group has no truthy duration. -/
theorem C1_flatten_duration (response : List ApiGroup) :
    (flattenResults response).map SlotRecord.duration
      = response.flatMap (fun g => (g.results.getD []).map
          (fun s => if g.duration.truthy then g.duration else s.slotduration)) := by
  rw [flattenResults_eq_flatMap]
  induction response with
  | nil => simp
  | cons g gs ih =>
    rw [List.flatMap_cons, List.flatMap_cons, List.map_append, ih, List.map_map]
    rfl

/-! ### Record extractor: one `try` block for all sections -/

/-- Reading a section back after an assignment. -/
theorem lookup_assignSection (d : DemographicData) (name : String) (v : SectionVal)
    (m : String) :
    (assignSection d name v).lookup m = if m = name then some v else d.lookup m := by
  induction d with
  | nil =>
    by_cases h : m = name
    · simp [assignSection, List.lookup, h]
    · have h2 : (m == name) = false := by simpa using h
      simp [assignSection, List.lookup, h, h2]
  | cons kv rest ih =>
    obtain ⟨n0, v0⟩ := kv
    by_cases h0 : n0 = name
    · subst h0
      by_cases h : m = n0
      · simp [assignSection, List.lookup, h]
      · have h2 : (m == n0) = false := by simpa using h
        simp [assignSection, List.lookup, h, h2]
    · by_cases h : m = name
      · subst h
        have h2 : (m == n0) = false := by
          simpa using (fun h3 : m = n0 => h0 h3.symm)
        simp [assignSection, List.lookup, h0, h2, ih]
      · by_cases h3 : m = n0
        · simp [assignSection, List.lookup, h0, h3]
        · have h2 : (m == n0) = false := by simpa using h3
          simp [assignSection, List.lookup, h0, h2, ih, h]

/-- The `try` block run on `pre ++ tail`, where every section of `pre` evaluates and the
run of `tail` changes nothing (it is empty, or its first section throws): the sections of
`pre` hold their values, every other name is untouched. -/
theorem runSections_prefix (doc : Document) (tail : List (String × SectionSpec))
    (htail : ∀ d, runSections doc tail d = d) :
    ∀ (pre : List (String × SectionSpec)) (d : DemographicData),
      (∀ p ∈ pre, (evalSection doc p.2).isOk = true) →
      (pre.map (fun p => p.1)).Nodup →
      (∀ p ∈ pre, ∀ v, evalSection doc p.2 = .ok v →
          (runSections doc (pre ++ tail) d).lookup p.1 = some v)
      ∧ (∀ m, m ∉ pre.map (fun p => p.1) →
          (runSections doc (pre ++ tail) d).lookup m = d.lookup m) := by
  intro pre
  induction pre with
  | nil =>
    intro d _ _
    refine ⟨by simp, ?_⟩
    intro m _
    simp [htail]
  | cons q pre ih =>
    intro d hok hnd
    obtain ⟨qn, qs⟩ := q
    have hq : (evalSection doc qs).isOk = true := hok (qn, qs) (by simp)
    cases hv : evalSection doc qs with
    | error err => simp [hv, Except.isOk, Except.toBool] at hq
    | ok vq =>
      have hnd2 : (pre.map (fun p => p.1)).Nodup := (List.nodup_cons.mp hnd).2
      have hqn : qn ∉ pre.map (fun p => p.1) := (List.nodup_cons.mp hnd).1
      have hrun : runSections doc ((qn, qs) :: pre ++ tail) d
          = runSections doc (pre ++ tail) (assignSection d qn vq) := by
        simp [runSections, hv]
      obtain ⟨ih1, ih2⟩ := ih (assignSection d qn vq)
        (fun p hp => hok p (List.mem_cons_of_mem _ hp)) hnd2
      rw [hrun]
      constructor
      · intro p hp v hpv
        rcases List.mem_cons.mp hp with h | h
        · subst h
          simp only at hpv ⊢
          rw [hv] at hpv
          cases hpv
          rw [ih2 qn hqn, lookup_assignSection]
          simp
        · exact ih1 p h v hpv
      · intro m hm
        have hm1 : m ≠ qn := fun h => hm (by simp [h])
        have hm2 : m ∉ pre.map (fun p => p.1) := fun h => hm (by
          simp only [List.map_cons, List.mem_cons]
          exact Or.inr h)
        rw [ih2 m hm2, lookup_assignSection]
        simp [hm1]

/-- The section names of the schema are pairwise distinct. -/
theorem schema_names_nodup : (schema.map (fun p => p.1)).Nodup := by decide

/-- Every section named by the schema starts as the empty object. -/
theorem empty_lookup_schema :
    ∀ m ∈ schema.map (fun p => p.1), emptyDemographicData.lookup m = some [] := by decide

/-- A radio button whose name holds a backslash escape raises nothing: the selector is
valid, the contact section reads the value of the checked input it matches, and every
section is filled. -/
theorem escaped_radio_name_resolves :
    (getValue escapedRadioPage "txtVEmail").toOption = some (.str "yes")
      ∧ sectionsOk escapedRadioPage = true
      ∧ recordLeaf (extractedData escapedRadioPage) "contactInfo" ["email"]
          = some (.str "yes")
      ∧ recordLeaf (extractedData escapedRadioPage) "employment" ["employer"]
          = some (.str "Acme") := by
  decide

/-- C2 (as stated, refuted): on a page where the age control of the first section is a
radio button whose name breaks the selector, the first section throws; the contact
section would resolve its e-mail field on that page, yet it is left as the empty object
in the record that the function returns. -/
theorem C2_counterexample :
    nameSelector (String.singleton (Char.ofNat 34)) = .invalid
      ∧ (evalSection radioPage patientInfoSpec).isOk = false
      ∧ (evalSection radioPage contactInfoSpec).toOption.bind (fun s => leafAt s ["email"])
          = some (.str "ann@example.org")
      ∧ (extractPatientDetails sampleEnv radioPage).toOption.map
          (fun r => sectionOf r.extractedData "contactInfo") = some (some []) := by
  decide

/-- C2 (amended): all sections share one try block.  When a section throws, the
exception is caught and the function still returns (provided the two metadata reads
succeed); the sections assigned before the failing one hold the values their fields
resolve to, and the failing section and every section after it in assignment order are
left as the empty object.  The failure is an exception the program raises, not an
outcome the model leaves undecided. -/
theorem C2_sections_after_failure_stay_empty (env : Env) (doc : Document)
    (pre : List (String × SectionSpec)) (name : String) (spec : SectionSpec)
    (post : List (String × SectionSpec)) (e : JSError)
    (hs : schema = pre ++ (name, spec) :: post)
    (hpre : ∀ p ∈ pre, (evalSection doc p.2).isOk = true)
    (hfail : evalSection doc spec = .error e) (_he : e ≠ .notModelled)
    (hid : (getValue doc "intPatient_ID").isOk = true)
    (hacc : (getValue doc "TxtVAcc").isOk = true) :
    ∃ r, extractPatientDetails env doc = .ok r
      ∧ (∀ p ∈ pre, ∀ v, evalSection doc p.2 = .ok v →
            sectionOf r.extractedData p.1 = some v)
      ∧ sectionOf r.extractedData name = some []
      ∧ (∀ p ∈ post, sectionOf r.extractedData p.1 = some []) := by
  have hnd := schema_names_nodup
  have hempty := empty_lookup_schema
  rw [hs] at hnd hempty
  simp only [List.map_append, List.map_cons] at hnd hempty
  have hnd1 : (pre.map (fun p => p.1)).Nodup := (List.nodup_append.mp hnd).1
  have hdisj := (List.nodup_append.mp hnd).2.2
  obtain ⟨h1, h2⟩ :=
    runSections_prefix doc ((name, spec) :: post) (fun d => by simp [runSections, hfail])
      pre emptyDemographicData hpre hnd1
  cases hv1 : getValue doc "intPatient_ID" with
  | error err => simp [hv1, Except.isOk, Except.toBool] at hid
  | ok v1 =>
    cases hv2 : getValue doc "TxtVAcc" with
    | error err => simp [hv2, Except.isOk, Except.toBool] at hacc
    | ok v2 =>
      refine ⟨{ extractedData := extractedData doc, rawInputs := extractAllInputs doc,
                searchContext := readSearchContext env.sessionStorage,
                metadata := { extractedAt := env.now, patientId := v1, accountNumber := v2,
                              pageUrl := env.pageUrl } },
              by simp only [extractPatientDetails, hv1, hv2], ?_, ?_, ?_⟩
      · intro p hp v hpv
        simpa [sectionOf, extractedData, hs] using h1 p hp v hpv
      · have hn : name ∉ pre.map (fun p => p.1) := fun h =>
          hdisj h (by simp)
        simp only [sectionOf, extractedData, hs]
        rw [h2 name hn]
        exact hempty name (by simp)
      · intro p hp
        have hmem : p.1 ∈ List.map (fun p => p.1) post := List.mem_map_of_mem _ hp
        have hn : p.1 ∉ pre.map (fun p => p.1) := fun h =>
          hdisj h (by simp [hmem])
        simp only [sectionOf, extractedData, hs]
        rw [h2 p.1 hn]
        exact hempty p.1 (by simp [hmem])

/-- C2 (amended), instance: on a page where the third assigned section throws, the two
sections before it are populated and the failing section and the ten after it are empty. -/
theorem C2_sections_after_failure_stay_empty_witness :
    ∃ r, extractPatientDetails sampleEnv lateRadioPage = .ok r
      ∧ (∀ p ∈ [("patientInfo", patientInfoSpec), ("addresses", addressesSpec)],
            ∀ v, evalSection lateRadioPage p.2 = .ok v →
            sectionOf r.extractedData p.1 = some v)
      ∧ sectionOf r.extractedData "contactInfo" = some []
      ∧ (∀ p ∈ schema.drop 3, sectionOf r.extractedData p.1 = some []) :=
  C2_sections_after_failure_stay_empty sampleEnv lateRadioPage
    [("patientInfo", patientInfoSpec), ("addresses", addressesSpec)]
    "contactInfo" contactInfoSpec (schema.drop 3) .syntaxError
    rfl (by decide) rfl (by decide) (by decide) (by decide)

/-! ### Record extractor: what the leaves hold when no section throws -/

/-- A chain none of whose candidates is present resolves to null without throwing. -/
theorem evalField_absent (doc : Document) :
    ∀ e : FieldExpr, e.isChain = true → e.absent doc = true → evalField doc e = .ok .null := by
  intro e
  induction e with
  | getValue id =>
    intro _ h
    cases hg : getElementById doc id with
    | none => simp [evalField, getValue, hg]
    | some el => simp [FieldExpr.absent, hg] at h
  | getValueByLabel t =>
    intro _ h
    cases hg : findLabel doc t with
    | none => simp [evalField, getValueByLabel, hg]
    | some el => simp [FieldExpr.absent, hg] at h
  | «or» a b iha ihb =>
    intro hc h
    simp only [FieldExpr.isChain, Bool.and_eq_true] at hc
    simp only [FieldExpr.absent, Bool.and_eq_true] at h
    simp [evalField, iha hc.1 h.1, ihb hc.2 h.2, JSVal.truthy]
  | strictEq a s _ => intro hc; simp [FieldExpr.isChain] at hc
  | textIncludes id needle => intro hc; simp [FieldExpr.isChain] at hc

/-- Looking past a first key that is not the head of the path. -/
theorem leafAt_cons_of_ne (k0 : String) (fv : FieldVal) (o : SectionVal) :
    ∀ path : List String, path.head? ≠ some k0 → leafAt ((k0, fv) :: o) path = leafAt o path := by
  intro path h
  match path, h with
  | [], _ => rfl
  | [k], h =>
    have h2 : (k == k0) = false := by simpa using h
    simp [leafAt, List.lookup, h2]
  | [g, k], h =>
    have h2 : (g == k0) = false := by simpa using h
    simp [leafAt, List.lookup, h2]
  | _ :: _ :: _ :: _, _ => rfl

/-- The path of a leaf of a section literal starts with one of its keys. -/
theorem sectionLeaves_head (spec : SectionSpec) :
    ∀ l ∈ sectionLeaves spec, ∃ k ∈ spec.map (fun kv => kv.1), l.1.head? = some k := by
  induction spec with
  | nil => intro l hl; simp [sectionLeaves] at hl
  | cons kv rest ih =>
    obtain ⟨k, f⟩ := kv
    cases f with
    | leaf e =>
      intro l hl
      simp only [sectionLeaves, List.mem_cons] at hl
      rcases hl with h | h
      · exact ⟨k, by simp, by simp [h]⟩
      · obtain ⟨k2, hk2, hh⟩ := ih l h
        exact ⟨k2, by simp [hk2], hh⟩
    | group fs =>
      intro l hl
      simp only [sectionLeaves, List.mem_append, List.mem_map] at hl
      rcases hl with ⟨f, _, rfl⟩ | h
      · exact ⟨k, by simp, by simp⟩
      · obtain ⟨k2, hk2, hh⟩ := ih l h
        exact ⟨k2, by simp [hk2], hh⟩

/-- A flat literal that evaluates holds, under each key, the value of its expression. -/
theorem evalFields_lookup (doc : Document) :
    ∀ (fs : List (String × FieldExpr)) (o : JSObject),
      evalFields doc fs = .ok o → (fs.map (fun f => f.1)).Nodup →
      ∀ f ∈ fs, ∃ v, evalField doc f.2 = .ok v ∧ o.lookup f.1 = some v := by
  intro fs
  induction fs with
  | nil => intro o _ _ f hf; simp at hf
  | cons kv rest ih =>
    obtain ⟨k, e⟩ := kv
    intro o ho hnd f hf
    cases he : evalField doc e with
    | error err => simp [evalFields, he] at ho
    | ok v =>
      cases hr : evalFields doc rest with
      | error err => simp [evalFields, he, hr] at ho
      | ok o2 =>
        simp only [evalFields, he, hr, Except.ok.injEq] at ho
        subst ho
        have hk : k ∉ rest.map (fun f => f.1) := (List.nodup_cons.mp hnd).1
        rcases List.mem_cons.mp hf with h | h
        · subst h
          exact ⟨v, he, by simp [List.lookup]⟩
        · obtain ⟨v2, hv2, hl⟩ := ih o2 hr (List.nodup_cons.mp hnd).2 f h
          have hne : (f.1 == k) = false := by
            have : f.1 ≠ k := fun hh => hk (hh ▸ List.mem_map_of_mem _ h)
            simpa using this
          exact ⟨v2, hv2, by simp [List.lookup, hne, hl]⟩

/-- A section literal that evaluates holds, under the path of each leaf, the value of
that leaf's expression. -/
theorem evalSection_leafAt (doc : Document) :
    ∀ (spec : SectionSpec) (sv : SectionVal),
      evalSection doc spec = .ok sv → specKeysOk spec = true →
      ∀ l ∈ sectionLeaves spec, ∃ v, evalField doc l.2 = .ok v ∧ leafAt sv l.1 = some v := by
  intro spec
  induction spec with
  | nil => intro sv _ _ l hl; simp [sectionLeaves] at hl
  | cons kv rest ih =>
    obtain ⟨k, f⟩ := kv
    intro sv hsv hkeys l hl
    simp only [specKeysOk, List.map_cons, List.all_cons, Bool.and_eq_true,
      decide_eq_true_eq] at hkeys
    obtain ⟨hnd, hf, hrest⟩ := hkeys
    have hk : k ∉ rest.map (fun kv => kv.1) := (List.nodup_cons.mp hnd).1
    have hkeys2 : specKeysOk rest = true := by
      simp only [specKeysOk, Bool.and_eq_true, decide_eq_true_eq]
      exact ⟨(List.nodup_cons.mp hnd).2, hrest⟩
    have tailCase : ∀ (fv : FieldVal) (o : SectionVal), evalSection doc rest = .ok o →
        l ∈ sectionLeaves rest →
        ∃ v, evalField doc l.2 = .ok v ∧ leafAt ((k, fv) :: o) l.1 = some v := by
      intro fv o ho hmem
      obtain ⟨v, hv, hl2⟩ := ih o ho hkeys2 l hmem
      obtain ⟨k2, hk2, hh⟩ := sectionLeaves_head rest l hmem
      have hne : l.1.head? ≠ some k := by
        rw [hh]
        intro h3
        cases h3
        exact hk hk2
      exact ⟨v, hv, by rw [leafAt_cons_of_ne k fv o l.1 hne, hl2]⟩
    cases f with
    | leaf e =>
      cases he : evalField doc e with
      | error err => simp [evalSection, he] at hsv
      | ok v =>
        cases hr : evalSection doc rest with
        | error err => simp [evalSection, he, hr] at hsv
        | ok o =>
          simp only [evalSection, he, hr, Except.ok.injEq] at hsv
          subst hsv
          simp only [sectionLeaves, List.mem_cons] at hl
          rcases hl with h | h
          · subst h
            exact ⟨v, he, by simp [leafAt, List.lookup]⟩
          · exact tailCase (.leaf v) o hr h
    | group fs =>
      cases hg : evalFields doc fs with
      | error err => simp [evalSection, hg] at hsv
      | ok g =>
        cases hr : evalSection doc rest with
        | error err => simp [evalSection, hg, hr] at hsv
        | ok o =>
          simp only [evalSection, hg, hr, Except.ok.injEq] at hsv
          subst hsv
          simp only [sectionLeaves, List.mem_append, List.mem_map] at hl
          rcases hl with ⟨f, hfmem, rfl⟩ | h
          · have hfs : (fs.map (fun f => f.1)).Nodup := by simpa using hf
            obtain ⟨v, hv, hlk⟩ := evalFields_lookup doc fs g hg hfs f hfmem
            exact ⟨v, hv, by simp [leafAt, List.lookup, hlk]⟩
          · exact tailCase (.group g) o hr h

/-- Every section literal of the schema has pairwise distinct keys. -/
theorem schema_keys_ok : ∀ s ∈ schema, specKeysOk s.2 = true := by decide

/-- When no section throws, the record holds under every leaf of the schema the value
the leaf's expression resolves to on the page. -/
theorem recordLeaf_of_sectionsOk (doc : Document) (hok : sectionsOk doc = true) :
    ∀ leaf ∈ schemaLeaves, ∃ v, evalField doc leaf.2.2 = .ok v
      ∧ recordLeaf (extractedData doc) leaf.1 leaf.2.1 = some v := by
  intro leaf hleaf
  simp only [schemaLeaves, List.mem_flatMap, List.mem_map] at hleaf
  obtain ⟨sec, hsec, l, hl, rfl⟩ := hleaf
  have hall : ∀ p ∈ schema, (evalSection doc p.2).isOk = true := by
    simpa [sectionsOk, List.all_eq_true] using hok
  obtain ⟨h1, _⟩ := runSections_prefix doc [] (fun d => rfl) schema emptyDemographicData
    hall schema_names_nodup
  have hs := hall sec hsec
  cases hv : evalSection doc sec.2 with
  | error err => simp [hv, Except.isOk, Except.toBool] at hs
  | ok sv =>
    obtain ⟨v, hv1, hv2⟩ := evalSection_leafAt doc sec.2 sv hv (schema_keys_ok sec hsec) l hl
    refine ⟨v, hv1, ?_⟩
    have := h1 sec hsec sv hv
    simp only [List.append_nil] at this
    simp [recordLeaf, sectionOf, extractedData, this, hv2]

/-- C3 (as stated, refuted): on a page with three schema fields present, where the
controls behind the two leaves below are absent, the record represents those leaves by
false and by undefined, not by null. -/
theorem C3_counterexample :
    (getElementById sparsePage "isMdnSupportContact").isNone = true
      ∧ (getElementById sparsePage "lnkDaisey").isNone = true
      ∧ recordLeaf (extractedData sparsePage) "supportContact" ["isRequired"]
          = some (.bool false)
      ∧ recordLeaf (extractedData sparsePage) "clinicalInfo" ["isDaiseyEnrolled"]
          = some .undefined
      ∧ recordLeaf (extractedData sparsePage) "patientInfo" ["middleName"] = some .null := by
  decide

/-- C3 (amended): on every page on which no section throws, each leaf of the record holds
the value its expression resolves to; a leaf given by a candidate chain none of whose
candidates is present is null under its key.  The only two leaves that are not candidate
chains are represented differently when their control is absent: isDaiseyEnrolled of
clinicalInfo is undefined and isRequired of supportContact is false. -/
theorem C3_absent_leaves (doc : Document) (hok : sectionsOk doc = true) :
    (∀ leaf ∈ schemaLeaves, ∀ v, evalField doc leaf.2.2 = .ok v →
        recordLeaf (extractedData doc) leaf.1 leaf.2.1 = some v)
      ∧ (∀ leaf ∈ schemaLeaves, leaf.2.2.isChain = true → leaf.2.2.absent doc = true →
          recordLeaf (extractedData doc) leaf.1 leaf.2.1 = some .null)
      ∧ (∀ leaf ∈ schemaLeaves, leaf.2.2.isChain = false →
          leaf = ("clinicalInfo", ["isDaiseyEnrolled"], .textIncludes "lnkDaisey" "Enrolled")
          ∨ leaf = ("supportContact", ["isRequired"],
                      .strictEq (.getValue "isMdnSupportContact") "1"))
      ∧ (getElementById doc "lnkDaisey" = none →
          recordLeaf (extractedData doc) "clinicalInfo" ["isDaiseyEnrolled"] = some .undefined)
      ∧ (getElementById doc "isMdnSupportContact" = none →
          recordLeaf (extractedData doc) "supportContact" ["isRequired"]
            = some (.bool false)) := by
  have master : ∀ leaf ∈ schemaLeaves, ∀ v, evalField doc leaf.2.2 = .ok v →
      recordLeaf (extractedData doc) leaf.1 leaf.2.1 = some v := by
    intro leaf hleaf v hv
    obtain ⟨v2, hv2, hr⟩ := recordLeaf_of_sectionsOk doc hok leaf hleaf
    rw [hv] at hv2
    cases hv2
    exact hr
  refine ⟨master, ?_, by decide, ?_, ?_⟩
  · intro leaf hleaf hc ha
    exact master leaf hleaf .null (evalField_absent doc leaf.2.2 hc ha)
  · intro h
    exact master ("clinicalInfo", ["isDaiseyEnrolled"], .textIncludes "lnkDaisey" "Enrolled")
      (by decide) .undefined (by simp [evalField, h])
  · intro h
    exact master ("supportContact", ["isRequired"],
        .strictEq (.getValue "isMdnSupportContact") "1")
      (by decide) (.bool false) (by simp [evalField, getValue, h])

/-- C3 (amended), instance: the page with three fields present. -/
theorem C3_absent_leaves_witness :
    sectionsOk sparsePage = true
      ∧ (∀ leaf ∈ schemaLeaves, leaf.2.2.isChain = true → leaf.2.2.absent sparsePage = true →
          recordLeaf (extractedData sparsePage) leaf.1 leaf.2.1 = some .null) :=
  ⟨by decide, (C3_absent_leaves sparsePage (by decide)).2.1⟩

/-! ### Listing extractor -/

/-- A match at the start of the text: shape of the text and of the captured digits. -/
theorem matchLoadPatientAt_some (s d : List Char) (h : matchLoadPatientAt s = some d) :
    d ≠ [] ∧ (∀ c ∈ d, c.isDigit = true)
      ∧ ∃ post, s = "LoadPatient(".data ++ d ++ Char.ofNat 44 :: post := by
  unfold matchLoadPatientAt at h
  split at h
  · rename_i hp
    simp only at h
    split at h
    · rename_i hc
      simp only [Option.some.injEq] at h
      subst h
      rw [Bool.and_eq_true] at hc
      obtain ⟨hne, hhead⟩ := hc
      rw [beq_iff_eq] at hhead
      refine ⟨?_, ?_, ?_⟩
      · intro h0
        rw [h0] at hne
        exact absurd hne (by decide)
      · intro c hc
        exact (List.mem_takeWhile_imp hc)
      · obtain ⟨t, ht⟩ := List.isPrefixOf_iff_prefix.mp hp
        have hdrop : s.drop "LoadPatient(".data.length = t := by
          rw [← ht]
          exact List.drop_left _ _
        rw [hdrop] at hhead ⊢
        cases hdw : t.dropWhile Char.isDigit with
        | nil => simp [hdw] at hhead
        | cons c post =>
          simp only [hdw, List.head?_cons, Option.some.injEq] at hhead
          subst hhead
          refine ⟨post, ?_⟩
          rw [← ht, List.append_assoc, ← hdw, List.takeWhile_append_dropWhile]
    · simp at h
  · simp at h

/-- A match anywhere in the text: shape of the text and of the captured digits. -/
theorem matchLoadPatient_some (s d : List Char) (h : matchLoadPatient s = some d) :
    d ≠ [] ∧ (∀ c ∈ d, c.isDigit = true)
      ∧ ∃ pre post, s = pre ++ "LoadPatient(".data ++ d ++ Char.ofNat 44 :: post := by
  induction s with
  | nil => simp [matchLoadPatient] at h
  | cons c cs ih =>
    unfold matchLoadPatient at h
    cases hat : matchLoadPatientAt (c :: cs) with
    | some d2 =>
      simp only [hat, Option.some.injEq] at h
      subst h
      obtain ⟨h1, h2, post, h3⟩ := matchLoadPatientAt_some _ _ hat
      exact ⟨h1, h2, [], post, by simpa using h3⟩
    | none =>
      simp only [hat] at h
      obtain ⟨h1, h2, pre, post, h3⟩ := ih h
      exact ⟨h1, h2, c :: pre, post, by simp [h3]⟩

/-- A text of the expected shape is matched. -/
theorem matchLoadPatient_complete (pre d post : List Char) (hne : d ≠ [])
    (hd : ∀ c ∈ d, c.isDigit = true) :
    (matchLoadPatient (pre ++ "LoadPatient(".data ++ d ++ Char.ofNat 44 :: post)).isSome
      = true := by
  have hat : matchLoadPatientAt ("LoadPatient(".data ++ d ++ Char.ofNat 44 :: post)
      = some d := by
    have hcomma : ¬ (Char.ofNat 44).isDigit = true := by decide
    have hp : "LoadPatient(".data.isPrefixOf
        ("LoadPatient(".data ++ d ++ Char.ofNat 44 :: post) = true := by
      rw [List.isPrefixOf_iff_prefix, List.append_assoc]
      exact List.prefix_append _ _
    have hdrop : ("LoadPatient(".data ++ d ++ Char.ofNat 44 :: post).drop
        "LoadPatient(".data.length = d ++ Char.ofNat 44 :: post := by
      rw [List.append_assoc]
      exact List.drop_left _ _
    have htw : (d ++ Char.ofNat 44 :: post).takeWhile Char.isDigit = d := by
      rw [List.takeWhile_append_of_pos hd, List.takeWhile_cons_of_neg hcomma]
      simp
    have hdw : (d ++ Char.ofNat 44 :: post).dropWhile Char.isDigit
        = Char.ofNat 44 :: post := by
      rw [List.dropWhile_append_of_pos hd, List.dropWhile_cons_of_neg hcomma]
    have hemp : d.isEmpty = false := by
      cases d with
      | nil => exact absurd rfl hne
      | cons _ _ => rfl
    unfold matchLoadPatientAt
    rw [if_pos hp]
    simp only [hdrop, htw, hdw, hemp]
    simp
  induction pre with
  | nil =>
    have hcons : ∃ c cs, "LoadPatient(".data ++ d ++ Char.ofNat 44 :: post = c :: cs :=
      ⟨_, _, rfl⟩
    obtain ⟨c, cs, hc⟩ := hcons
    simp only [List.nil_append]
    rw [hc] at hat ⊢
    simp [matchLoadPatient, hat]
  | cons c pre ih =>
    simp only [List.cons_append]
    unfold matchLoadPatient
    cases h2 : matchLoadPatientAt
        (c :: (pre ++ "LoadPatient(".data ++ d ++ Char.ofNat 44 :: post)) with
    | some d2 => simp
    | none =>
      simp only
      simpa [List.append_assoc] using ih

/-- A row has an id exactly when its navigation reference matches the pattern. -/
theorem rowId_isSome_iff (l : Located) : (rowId l).isSome = true ↔ hrefMatches l := by
  constructor
  · intro h
    cases hh : l.attrs.href with
    | none => simp [rowId, hh] at h
    | some href =>
      cases hm : matchLoadPatient href.data with
      | none => simp [rowId, hh, hm] at h
      | some d =>
        obtain ⟨h1, h2, pre, post, h3⟩ := matchLoadPatient_some _ _ hm
        exact ⟨href, pre, d, post, hh, h3, h1, h2⟩
  · rintro ⟨href, pre, d, post, hh, h3, h1, h2⟩
    have := matchLoadPatient_complete pre d post h1 h2
    rw [← h3] at this
    cases hm : matchLoadPatient href.data with
    | none => simp [hm] at this
    | some d2 => simp [rowId, hh, hm]

/-- Unfolding of the id of a row whose navigation reference is known. -/
theorem rowId_of_href (l : Located) (href : String) (hh : l.attrs.href = some href) :
    rowId l = (matchLoadPatient href.data).map String.mk := by
  simp [rowId, hh]

/-- A row without an id pushes no tuple (it is skipped, or its body throws). -/
theorem processRow_of_rowId_none (doc : Document) (l : Located) (i : Nat)
    (h : rowId l = none) : ∀ t, processRow doc l i ≠ .ok (some t) := by
  intro t
  unfold processRow
  cases hh : l.attrs.href with
  | none => simp
  | some href =>
    rw [rowId_of_href l href hh] at h
    cases hm : matchLoadPatient href.data with
    | none => simp [hm]
    | some d => simp [hm] at h

/-- A row with an id pushes one tuple carrying that id and the position of the row. -/
theorem processRow_of_rowId_some (doc : Document) (l : Located) (i : Nat) (id : String)
    (h : rowId l = some id) :
    ∃ t, processRow doc l i = .ok (some t) ∧ t.hiddenPatientId = id ∧ t.index = i + 1 := by
  unfold processRow
  cases hh : l.attrs.href with
  | none => simp [rowId, hh] at h
  | some href =>
    rw [rowId_of_href l href hh] at h
    cases hm : matchLoadPatient href.data with
    | none => simp [hm] at h
    | some d =>
      have hd : d.isEmpty = false := by
        have := (matchLoadPatient_some _ _ hm).1
        cases d with
        | nil => exact absurd rfl this
        | cons _ _ => rfl
      rw [hm] at h
      simp only [Option.map_some', Option.some.injEq] at h
      subst h
      simp [hm, hd]

/-- The ids pushed by the row loop: those of the rows that have one, in row order. -/
theorem forEachRow_ids (doc : Document) :
    ∀ (links : List Located) (i : Nat) (acc : List PatientTuple),
      (forEachRow doc links i acc).map (fun t => t.hiddenPatientId)
        = acc.map (fun t => t.hiddenPatientId) ++ links.filterMap rowId := by
  intro links
  induction links with
  | nil => intro i acc; simp [forEachRow]
  | cons l rest ih =>
    intro i acc
    cases hr : rowId l with
    | none =>
      have hno := processRow_of_rowId_none doc l i hr
      unfold forEachRow
      cases hp : processRow doc l i with
      | error e => simp [ih, hr]
      | ok o =>
        cases o with
        | none => simp [ih, hr]
        | some t => exact absurd hp (hno t)
    | some id =>
      obtain ⟨t, hp, hid, _⟩ := processRow_of_rowId_some doc l i id hr
      unfold forEachRow
      simp [hp, ih, hr, hid]

/-- The ids carried by the result of the listing extractor. -/
theorem listing_ids (doc : Document) :
    (listingTuples (extractPatientsFromDocument doc)).map (fun t => t.hiddenPatientId)
      = (patientLinks doc).filterMap rowId := by
  unfold extractPatientsFromDocument
  simp only
  split
  · rename_i h0
    have : patientLinks doc = [] := List.length_eq_zero.mp h0
    simp [listingTuples, this]
  · have hids := forEachRow_ids doc (patientLinks doc) 0 []
    simp only [List.map_nil, List.nil_append] at hids
    split
    · simpa [listingTuples] using hids
    · rename_i hlen
      have hnil : forEachRow doc (patientLinks doc) 0 [] = [] :=
        List.length_eq_zero.mp (by omega)
      rw [hnil] at hids
      simp [listingTuples, ← hids]

/-- The number of entries kept by `filterMap` is the number of entries with a value. -/
theorem length_filterMap_rowId (links : List Located) :
    (links.filterMap rowId).length = links.countP (fun l => (rowId l).isSome) := by
  induction links with
  | nil => rfl
  | cons l rest ih =>
    cases h : rowId l with
    | none => simp [List.filterMap_cons, List.countP_cons, h, ih]
    | some id => simp [List.filterMap_cons, List.countP_cons, h, ih]

/-- C4: the listing extractor returns exactly one tuple per row whose navigation
reference matches the id pattern, in row order; the rows that do not match are dropped;
the id of every returned tuple is the digit string captured from its row, hence it is
not empty and consists of digits only. -/
theorem C4_listing_rows (doc : Document) :
    (listingTuples (extractPatientsFromDocument doc)).map (fun t => t.hiddenPatientId)
        = (patientLinks doc).filterMap rowId
      ∧ (listingTuples (extractPatientsFromDocument doc)).length
        = (patientLinks doc).countP (fun l => (rowId l).isSome)
      ∧ (∀ l ∈ patientLinks doc, (rowId l).isSome = true ↔ hrefMatches l)
      ∧ (∀ t ∈ listingTuples (extractPatientsFromDocument doc),
          t.hiddenPatientId.data ≠ [] ∧ ∀ c ∈ t.hiddenPatientId.data, c.isDigit = true) := by
  have hids := listing_ids doc
  refine ⟨hids, ?_, fun l _ => rowId_isSome_iff l, ?_⟩
  · rw [← length_filterMap_rowId, ← hids, List.length_map]
  · intro t ht
    have hmem : t.hiddenPatientId ∈ (patientLinks doc).filterMap rowId := by
      rw [← hids]
      exact List.mem_map_of_mem _ ht
    obtain ⟨l, _, hl⟩ := List.mem_filterMap.mp hmem
    cases hh : l.attrs.href with
    | none => simp [rowId, hh] at hl
    | some href =>
      rw [rowId_of_href l href hh] at hl
      cases hm : matchLoadPatient href.data with
      | none => simp [hm] at hl
      | some d =>
        rw [hm] at hl
        simp only [Option.map_some', Option.some.injEq] at hl
        obtain ⟨h1, h2, _⟩ := matchLoadPatient_some _ _ hm
        rw [← hl]
        exact ⟨h1, h2⟩

/-- C4, instance: a listing with one malformed row between two well-formed rows yields
the two ids of the well-formed rows, in row order. -/
theorem C4_listing_rows_witness :
    (listingTuples (extractPatientsFromDocument mixedListing)).map (fun t => t.hiddenPatientId)
        = ["1001", "1003"]
      ∧ (patientLinks mixedListing).length = 3
      ∧ (listingTuples (extractPatientsFromDocument mixedListing)).length = 2 :=
  ⟨(C4_listing_rows mixedListing).1.trans (by decide), by decide,
    (C4_listing_rows mixedListing).2.1.trans (by decide)⟩

/-- When no row has an id the listing extractor returns null. -/
theorem extract_none_of_no_ids (doc : Document)
    (h : ∀ l ∈ patientLinks doc, rowId l = none) : extractPatientsFromDocument doc = none := by
  have hids := listing_ids doc
  have hnil : (patientLinks doc).filterMap rowId = [] := by
    rw [List.filterMap_eq_nil_iff]
    exact h
  rw [hnil] at hids
  cases hr : extractPatientsFromDocument doc with
  | none => rfl
  | some ps =>
    exfalso
    have hps : ps = [] := by simpa [hr, listingTuples] using hids
    subst hps
    unfold extractPatientsFromDocument at hr
    simp only at hr
    split at hr
    · simp at hr
    · split at hr
      · rename_i hlen
        simp only [Option.some.injEq] at hr
        rw [hr] at hlen
        simp at hlen
      · simp at hr

/-- The fallback loop finds nothing when no reachable sub-document has a row with an id. -/
theorem searchIframes_none (frames : List Frame)
    (h : ∀ f ∈ frames, ∀ d, f.contentDocument = some d →
      ∀ l ∈ patientLinks d, rowId l = none) : searchIframes frames = none := by
  induction frames with
  | nil => rfl
  | cons f rest ih =>
    have ihr := ih (fun g hg => h g (List.mem_cons_of_mem _ hg))
    unfold searchIframes
    cases hc : f.contentDocument with
    | none => simpa using ihr
    | some d =>
      have hd := extract_none_of_no_ids d (h f (by simp) d hc)
      simp [hd, ihr]

/-- C5 (as stated, refuted): a page without any result row and a page whose only row
fails id extraction give the same value (null) and end in the same branch (not found). -/
theorem C5_counterexample :
    (patientLinks noRowsListing).length = 0
      ∧ (patientLinks malformedListing).length = 1
      ∧ extractPatientsFromDocument noRowsListing = none
      ∧ extractPatientsFromDocument malformedListing = none
      ∧ searchPageOutcome { document := noRowsListing, iframes := [] } = .notFound
      ∧ searchPageOutcome { document := malformedListing, iframes := [] } = .notFound := by
  decide

/-- C5 (amended): the listing extractor returns null whenever no row yields an id, be it
because the page has no result row or because every row fails id extraction, and when
this holds for the main document and for every reachable sub-document the search-page
flow ends in the not-found branch: the two cases are not told apart by the returned
value or by the branch taken. -/
theorem C5_no_ids_is_not_found (page : Page)
    (hmain : ∀ l ∈ patientLinks page.document, rowId l = none)
    (hframes : ∀ f ∈ page.iframes, ∀ d, f.contentDocument = some d →
      ∀ l ∈ patientLinks d, rowId l = none) :
    extractPatientsFromDocument page.document = none
      ∧ searchPageOutcome page = .notFound := by
  have h1 := extract_none_of_no_ids page.document hmain
  have h2 := searchIframes_none page.iframes hframes
  exact ⟨h1, by simp [searchPageOutcome, findPatients, h1, h2]⟩

/-- C5 (amended), instance: a page whose only row fails id extraction, with one
unreachable sub-document and one reachable sub-document without rows. -/
theorem C5_no_ids_is_not_found_witness :
    (patientLinks malformedListing).length = 1
      ∧ extractPatientsFromDocument malformedListing = none
      ∧ searchPageOutcome
          { document := malformedListing,
            iframes := [{ contentDocument := none }, { contentDocument := some noRowsListing }] }
          = .notFound :=
  ⟨by decide,
   C5_no_ids_is_not_found
    { document := malformedListing,
      iframes := [{ contentDocument := none }, { contentDocument := some noRowsListing }] }
    (by decide)
    (by
      intro f hf d hd
      simp only [List.mem_cons, List.mem_singleton, List.not_mem_nil, or_false] at hf
      rcases hf with rfl | rfl
      · simp at hd
      · simp only [Option.some.injEq] at hd
        subst hd
        decide)⟩

/-! ### Correlation store -/

/-- Reading back the item that was just written. -/
theorem getItem_setItem (store : Storage) (k : String) (t : JsonText) :
    getItem (setItem store k t) k = some t := by
  induction store with
  | nil => simp [setItem, getItem, List.lookup]
  | cons kv rest ih =>
    obtain ⟨k0, t0⟩ := kv
    by_cases h : k0 = k
    · simp [setItem, getItem, List.lookup, h]
    · have h2 : (k == k0) = false := by
        simpa using (fun h3 : k = k0 => h h3.symm)
      simpa [setItem, getItem, List.lookup, h, h2] using ih

/-- Parsing the text of an object gives its defined properties. -/
theorem parse_stringify (o : JSObject) :
    JSON.parse (JSON.stringify o) = .ok (.object (definedProps o)) := by
  simp only [JSON.parse, JSON.stringify, Except.ok.injEq, Parsed.object.injEq]
  induction o with
  | nil => rfl
  | cons kv rest ih =>
    obtain ⟨k, v⟩ := kv
    cases v <;> simp [jsonMembers, definedProps, jsonOfVal, valOfJson] at ih ⊢ <;> exact ih

/-- C6 (as stated, refuted): the tuple of a row whose sibling elements are missing is
written to the store and read back; the value read back is not deep-equal to the tuple,
because the properties whose value is undefined are not written. -/
theorem C6_counterexample :
    ∃ t o, extractPatientsFromDocument bareListing = some [t]
      ∧ readSearchContext (storeCurrentPatient [] t) = some (.object o)
      ∧ deepEqual o t.toObject = false
      ∧ t.toObject.lookup "accountNumber" = some .undefined
      ∧ o.lookup "accountNumber" = none := by
  refine ⟨_, _, rfl, rfl, ?_, ?_, ?_⟩ <;> decide

/-- C6 (amended): for every tuple and every store, writing the tuple under
`curemd_current_patient` and reading it back as `extractPatientDetails` does yields an
object holding exactly the properties of the tuple whose value is not undefined, with
the same values; it is deep-equal to the tuple when every auxiliary field of the tuple
is present. -/
theorem C6_round_trip (store : Storage) (t : PatientTuple) :
    readSearchContext (storeCurrentPatient store t)
        = some (.object (definedProps t.toObject))
      ∧ (t.complete = true → deepEqual (definedProps t.toObject) t.toObject = true) := by
  constructor
  · simp [readSearchContext, storeCurrentPatient, getItem_setItem, parse_stringify]
    rfl
  · intro hc
    obtain ⟨i, h, a, n, s1, ph, d, c, b1, b2⟩ := t
    simp only [PatientTuple.complete, Bool.and_eq_true, Option.isSome_iff_exists] at hc
    obtain ⟨⟨⟨⟨⟨⟨⟨a, rfl⟩, ⟨s1, rfl⟩⟩, ⟨ph, rfl⟩⟩, ⟨d, rfl⟩⟩, ⟨c, rfl⟩⟩, ⟨b1, rfl⟩⟩, ⟨b2, rfl⟩⟩ := hc
    simp [PatientTuple.toObject, definedProps, deepEqual, List.lookup]

/-- C6 (amended), instance: the tuple of a row with all its sibling elements. -/
theorem C6_round_trip_witness :
    ∃ t, extractPatientsFromDocument fullListing = some [t] ∧ t.complete = true
      ∧ deepEqual (definedProps t.toObject) t.toObject = true :=
  ⟨_, rfl, by decide, (C6_round_trip [] _).2 (by decide)⟩

/-! ### Raw input map -/

/-- Reading a property back after an assignment. -/
theorem lookup_objSet (o : JSObject) (k : String) (v : JSVal) (m : String) :
    (objSet o k v).lookup m = if m = k then some v else o.lookup m := by
  induction o with
  | nil =>
    by_cases h : m = k
    · simp [objSet, List.lookup, h]
    · have h2 : (m == k) = false := by simpa using h
      simp [objSet, List.lookup, h, h2]
  | cons kv rest ih =>
    obtain ⟨k0, v0⟩ := kv
    by_cases h0 : k0 = k
    · subst h0
      by_cases h : m = k0
      · simp [objSet, List.lookup, h]
      · have h2 : (m == k0) = false := by simpa using h
        simp [objSet, List.lookup, h, h2]
    · by_cases h : m = k
      · subst h
        have h2 : (m == k0) = false := by
          simpa using (fun h3 : m = k0 => h0 h3.symm)
        simp [objSet, List.lookup, h0, h2, ih]
      · by_cases h3 : m = k0
        · simp [objSet, List.lookup, h0, h3]
        · have h2 : (m == k0) = false := by simpa using h3
          simp [objSet, List.lookup, h0, h2, ih, h]

/-- A key of the map stays a key (with a non-empty string value) through the loop. -/
theorem foldl_collectInput_keeps (els : List Located) (k : String) :
    ∀ acc : JSObject, (∃ v, acc.lookup k = some (.str v) ∧ v ≠ "") →
      ∃ v, (els.foldl collectInput acc).lookup k = some (.str v) ∧ v ≠ "" := by
  induction els with
  | nil => intro acc h; simpa using h
  | cons el rest ih =>
    intro acc h
    rw [List.foldl_cons]
    apply ih
    unfold collectInput
    split
    · rename_i hc
      rw [lookup_objSet]
      by_cases hk : k = el.attrs.id
      · simp only [Bool.and_eq_true, Bool.not_eq_true'] at hc
        refine ⟨el.attrs.jsValue, by simp [hk], ?_⟩
        intro h0
        rw [h0] at hc
        exact absurd hc.2 (by decide)
      · simpa [hk] using h
    · exact h

/-- Every collected control of the list ends up as a key of the map. -/
theorem foldl_collectInput_mem (els : List Located) (l : Located) (hl : l ∈ els)
    (hid : l.attrs.id.data.isEmpty = false) (hv : l.attrs.jsValue.data.isEmpty = false) :
    ∀ acc : JSObject,
      ∃ v, (els.foldl collectInput acc).lookup l.attrs.id = some (.str v) ∧ v ≠ "" := by
  induction els with
  | nil => simp at hl
  | cons el rest ih =>
    intro acc
    rw [List.foldl_cons]
    rcases List.mem_cons.mp hl with h | h
    · subst h
      apply foldl_collectInput_keeps
      refine ⟨l.attrs.jsValue, ?_, ?_⟩
      · simp [collectInput, hid, hv, lookup_objSet]
      · intro h0
        rw [h0] at hv
        exact absurd hv (by decide)
    · exact ih h _

/-- C7 (as stated, refuted): a populated hidden input, a populated date input and a
populated text input without an id are on the page, and none of them is in the map. -/
theorem C7_counterexample :
    (getElementById hiddenInputPage "hdnRaceName").map (fun l => (l.attrs.tagName, l.attrs.jsValue))
        = some ("INPUT", "White")
      ∧ (extractAllInputs hiddenInputPage).lookup "hdnRaceName" = none
      ∧ (extractAllInputs hiddenInputPage).lookup "txtDDOB" = none
      ∧ extractAllInputs hiddenInputPage = [("txtVFNAME", .str "Ann")] := by
  decide

/-- C7 (amended): for every page, the map returned by `extractAllInputs` has an entry,
with a non-empty string value, for every control that is matched by its selector (an
input whose type attribute is text, tel or email, a select, a textarea) and has a
non-empty id and a non-empty value. -/
theorem C7_collected_inputs (doc : Document) (l : Located) (hl : l ∈ doc.elements)
    (hc : collected l.attrs = true) :
    ∃ v, (extractAllInputs doc).lookup l.attrs.id = some (.str v) ∧ v ≠ "" := by
  simp only [collected, Bool.and_eq_true, Bool.not_eq_true'] at hc
  obtain ⟨⟨hsel, hid⟩, hv⟩ := hc
  unfold extractAllInputs
  exact foldl_collectInput_mem _ l (List.mem_filter.mpr ⟨hl, hsel⟩) hid hv []

/-- An element found by id is an element of the document. -/
theorem getElementById_mem (doc : Document) (id : String) (l : Located)
    (h : getElementById doc id = some l) : l ∈ doc.elements := by
  unfold getElementById at h
  split at h
  · simp at h
  · exact List.mem_of_find?_eq_some h

/-- C7 (amended), instance: the populated text input of the example page is in the map. -/
theorem C7_collected_inputs_witness :
    ∃ l, getElementById hiddenInputPage "txtVFNAME" = some l ∧ collected l.attrs = true
      ∧ ∃ v, (extractAllInputs hiddenInputPage).lookup l.attrs.id = some (.str v) ∧ v ≠ "" :=
  ⟨_, rfl, by decide,
    C7_collected_inputs hiddenInputPage _
      (getElementById_mem hiddenInputPage "txtVFNAME" _ rfl) (by decide)⟩

/-! ### Field resolver: order of candidates, blank controls, missing controls -/

/-- The value of `a || b` when `a` resolves to a truthy value. -/
theorem evalField_or_truthy (doc : Document) (a b : FieldExpr) (v : JSVal)
    (ha : evalField doc a = .ok v) (ht : v.truthy = true) :
    evalField doc (.or a b) = .ok v := by
  simp [evalField, ha, ht]

/-- The value of `a || b` when `a` resolves to a falsy value. -/
theorem evalField_or_falsy (doc : Document) (a b : FieldExpr) (v : JSVal)
    (ha : evalField doc a = .ok v) (ht : v.truthy = false) :
    evalField doc (.or a b) = evalField doc b := by
  simp [evalField, ha, ht]

/-- The record leaf of a schema leaf whose expression resolves to a known value. -/
theorem recordLeaf_eq (doc : Document) (hok : sectionsOk doc = true)
    (leaf : String × List String × FieldExpr) (hleaf : leaf ∈ schemaLeaves) (v : JSVal)
    (hv : evalField doc leaf.2.2 = .ok v) :
    recordLeaf (extractedData doc) leaf.1 leaf.2.1 = some v := by
  obtain ⟨v2, hv2, hr⟩ := recordLeaf_of_sectionsOk doc hok leaf hleaf
  rw [hv] at hv2
  cases hv2
  exact hr

/-- C8 (the code departs from it): on a page where, for both fields, the control with
the id and the label lookup each yield a non-empty value, chartNumber takes the value of
the control with the id (its label lookup is the last operand), whereas firstName of
previousNames takes the label-based value although the control `txtPreviousFirstName`
holds a non-empty value (its label lookup is the first operand). -/
theorem C8_label_first_for_previous_first_name :
    (getValue labelPage "txtPreviousFirstName").toOption = some (.str "New")
      ∧ getValueByLabel labelPage "Previous" = .str "Old"
      ∧ recordLeaf (extractedData labelPage) "previousNames" ["firstName"]
          = some (.str "Old")
      ∧ (getValue labelPage "txtChartNo").toOption = some (.str "C-9")
      ∧ getValueByLabel labelPage "Chart No." = .str "L-1"
      ∧ recordLeaf (extractedData labelPage) "patientInfo" ["chartNumber"]
          = some (.str "C-9") := by
  decide

/-- The fallback to the empty string does not change a string. -/
theorem jsOr_str_empty (x : String) : jsOr (.str x) (.str "") = .str x := by
  unfold jsOr JSVal.truthy
  cases hd : x.data with
  | nil =>
    have : x = "" := String.ext hd
    simp [this]
  | cons c cs => simp [hd]

/-- What being a free-text control gives to `getValue`. -/
theorem isFreeText_spec (a : Attrs) (h : isFreeText a = true) :
    a.tagName ≠ "SELECT" ∧ a.type ≠ "checkbox" ∧ a.type ≠ "radio"
      ∧ a.valueProperty = .str a.jsValue := by
  simp only [isFreeText, Bool.and_eq_true, Bool.or_eq_true, beq_iff_eq, decide_eq_true_eq,
    Option.isNone_iff_eq_none] at h
  obtain ⟨⟨⟨htag, h1⟩, h2⟩, h3⟩ := h
  refine ⟨?_, h1, h2, by simp [Attrs.valueProperty, h3]⟩
  rcases htag with ht | ht <;> rw [ht] <;> decide

/-- C9 (as stated, refuted): the control `txtvaddress1` is present and blank, the other
candidate `txtVAddress1` is missing, and the field address1 of the current address is
resolved to null, not to the empty string. -/
theorem C9_counterexample :
    (getValue blankAddressPage "txtvaddress1").toOption = some (.str "")
      ∧ (getElementById blankAddressPage "txtVAddress1").isNone = true
      ∧ recordLeaf (extractedData blankAddressPage) "addresses" ["current", "address1"]
          = some .null := by
  decide

/-- C9 (amended): `getValue` on a single id returns the empty string for a free-text
control (an input or a text area that is neither checkbox nor radio) that is present and
blank, never null for such a control, and null when the control is missing.  In a
chain `a || b`, when `a` resolves to a falsy value (blank or missing) the chain has the
value of `b`; so address1 of the current address is the value of `getValue('txtVAddress1')`
(the empty string when that control is present and blank, null when it is missing)
whenever `getValue('txtvaddress1')` is falsy. -/
theorem C9_blank_and_missing (doc : Document) :
    (∀ id el, getElementById doc id = some el → isFreeText el.attrs = true →
        el.attrs.jsValue = "" → getValue doc id = .ok (.str ""))
      ∧ (∀ id, getElementById doc id = none → getValue doc id = .ok .null)
      ∧ (∀ id el, getElementById doc id = some el → isFreeText el.attrs = true →
        getValue doc id ≠ .ok .null)
      ∧ (∀ a b va, evalField doc a = .ok va → va.truthy = false →
        evalField doc (.or a b) = evalField doc b)
      ∧ (sectionsOk doc = true → ∀ va vb, getValue doc "txtvaddress1" = .ok va →
        va.truthy = false → getValue doc "txtVAddress1" = .ok vb →
        recordLeaf (extractedData doc) "addresses" ["current", "address1"] = some vb) := by
  refine ⟨?_, ?_, ?_, ?_, ?_⟩
  · intro id el hel hft hv
    obtain ⟨h1, h2, h3, h4⟩ := isFreeText_spec el.attrs hft
    simp [getValue, hel, h1, h2, h3, h4, hv, jsOr_str_empty]
  · intro id hel
    simp [getValue, hel]
  · intro id el hel hft
    obtain ⟨h1, h2, h3, h4⟩ := isFreeText_spec el.attrs hft
    simp [getValue, hel, h1, h2, h3, h4, jsOr_str_empty]
  · intro a b va ha ht
    exact evalField_or_falsy doc a b va ha ht
  · intro hok va vb ha ht hb
    exact recordLeaf_eq doc hok
      ("addresses", ["current", "address1"],
        .or (.getValue "txtvaddress1") (.getValue "txtVAddress1")) (by decide) vb
      ((evalField_or_falsy doc _ _ va (by simpa [evalField] using ha) ht).trans
        (by simpa [evalField] using hb))

/-- C9 (amended), instance: on the page of the counterexample the single control
`txtVCounty`, present and blank, reads as the empty string, and address1 takes the null
of the missing last candidate. -/
theorem C9_blank_and_missing_witness :
    (∃ el, getElementById blankAddressPage "txtVCounty" = some el
        ∧ isFreeText el.attrs = true ∧ el.attrs.jsValue = ""
        ∧ getValue blankAddressPage "txtVCounty" = .ok (.str ""))
      ∧ sectionsOk blankAddressPage = true
      ∧ recordLeaf (extractedData blankAddressPage) "addresses" ["current", "address1"]
          = some .null :=
  ⟨⟨_, rfl, by decide, by decide,
      (C9_blank_and_missing blankAddressPage).1 "txtVCounty" _ rfl (by decide) (by decide)⟩,
   by decide,
   (C9_blank_and_missing blankAddressPage).2.2.2.2 (by decide) (.str "") .null rfl
      (by decide) rfl⟩

/-- C10: for every candidate chain none of whose locators is present on the page (no
element has any of the ids, no label or table cell contains any of the phrases),
resolution returns null and raises no exception. -/
theorem C10_absent_candidates_resolve_to_null (doc : Document) (e : FieldExpr)
    (hc : e.isChain = true) (ha : e.absent doc = true) :
    evalField doc e = .ok .null :=
  evalField_absent doc e hc ha

/-- C10, instance: the three-candidate chain of the marital status and the chain with a
label candidate of the chart number, on a page that has none of their controls. -/
theorem C10_absent_candidates_resolve_to_null_witness :
    evalField sparsePage
        (.or (.or (.getValue "cmbvstatus") (.getValue "cmbMaritalStatus"))
          (.getValue "cmbVSTATUS")) = .ok .null
      ∧ evalField sparsePage (.or (.getValue "txtChartNo") (.getValueByLabel "Chart No."))
          = .ok .null :=
  ⟨C10_absent_candidates_resolve_to_null sparsePage _ (by decide) (by decide),
   C10_absent_candidates_resolve_to_null sparsePage _ (by decide) (by decide)⟩

/-! ### Field resolver: selection controls -/

/-- The displayed text read from a selection control that has a selected option. -/
theorem selectedText_of_selectedOption (a : Attrs) (o : SelectOption)
    (h : selectedOption a = some o) : selectedText a = o.text := by
  unfold selectedOption at h
  unfold selectedText
  split at h
  · simp at h
  · rename_i hneg
    rw [if_neg hneg, h]

/-- C11: for every selection control that has a selected option, `getValue` on its id and
`getValueByLabel` on a label whose associated control it is both return the displayed
text of the selected option, whatever the value code of that option is. -/
theorem C11_select_reads_displayed_text (doc : Document) :
    (∀ id el o, getElementById doc id = some el → el.attrs.tagName = "SELECT" →
        selectedOption el.attrs = some o → getValue doc id = .ok (.str o.text))
      ∧ (∀ labelText label input o, findLabel doc labelText = some label →
        labelInput label = some input → input.tagName = "SELECT" →
        selectedOption input = some o → getValueByLabel doc labelText = .str o.text) := by
  constructor
  · intro id el o hel htag ho
    simp [getValue, hel, htag, selectedText_of_selectedOption _ _ ho, jsOr_str_empty]
  · intro labelText label input o hl hi htag ho
    simp [getValueByLabel, hl, hi, htag, selectedText_of_selectedOption _ _ ho, jsOr_str_empty]

/-- C11, instance: the selected option has the text Female and the code F; both lookups
return the text. -/
theorem C11_select_reads_displayed_text_witness :
    (∃ el, getElementById selectPage "cmbVSEX" = some el
        ∧ selectedOption el.attrs = some { text := "Female", value := "F" }
        ∧ getValue selectPage "cmbVSEX" = .ok (.str "Female"))
      ∧ getValueByLabel selectPage "Gender" = .str "Female" :=
  ⟨⟨_, rfl, by decide,
      (C11_select_reads_displayed_text selectPage).1 "cmbVSEX" _
        { text := "Female", value := "F" } rfl (by decide) (by decide)⟩,
   (C11_select_reads_displayed_text selectPage).2 "Gender" _ _
      { text := "Female", value := "F" } rfl rfl (by decide) (by decide)⟩

/-! ### Search client: validation and normalisation -/

/-- C12: a configuration whose providers is missing, is not an array or is an empty
array, or whose visit type is missing or empty, stops the script before any request is
built or sent, and no slots are produced; a configuration with a non-empty provider
array and a non-empty visit type passes validation, and exactly one request is sent. -/
theorem C12_validation (params : SearchParams) (csrfToken : Option String)
    (xhr : SearchRequest → XhrResult) :
    ((params.providers = .missing ∨ (∃ v, params.providers = .nonArray v)
          ∨ params.providers = .array [] ∨ params.visitType = .undefined
          ∨ params.visitType = .str "") →
        runSearch (some params) csrfToken xhr = { sent := [], result := .stopped })
      ∧ (∀ p ps s, params.providers = .array (p :: ps) → params.visitType = .str s →
          s ≠ "" →
          (runSearch (some params) csrfToken xhr).sent = [buildRequest params csrfToken]
            ∧ (runSearch (some params) csrfToken xhr).result ≠ .stopped) := by
  constructor
  · intro h
    rcases h with h | ⟨v, h⟩ | h | h | h
    · simp [runSearch, h, providersValid]
    · simp [runSearch, h, providersValid]
    · simp [runSearch, h, providersValid]
    · by_cases hp : providersValid params.providers = true
      · simp [runSearch, hp, h, JSVal.truthy]
      · simp [runSearch, hp]
    · by_cases hp : providersValid params.providers = true
      · simp [runSearch, hp, h, JSVal.truthy]
      · simp [runSearch, hp]
  · intro p ps s hp hv hs
    have hd : s.data.isEmpty = false := by
      cases hsd : s.data with
      | nil =>
        have hs2 : s = "" := String.ext hsd
        exact absurd hs2 hs
      | cons _ _ => rfl
    have hvalid : providersValid params.providers = true := by
      simp [hp, providersValid]
    have htruthy : params.visitType.truthy = true := by
      simp [hv, JSVal.truthy, hd]
    unfold runSearch
    simp only [hvalid, htruthy, Bool.not_true, Bool.false_eq_true, if_false]
    cases hx : xhr (buildRequest params csrfToken) with
    | networkError => simp
    | load status body =>
      cases body with
      | none => simp
      | some response =>
        by_cases h200 : status = 200
        · simp [h200]
        · simp [h200]

/-- C12, instance: an empty provider array stops the run without a request, and the
good configuration sends exactly one request and yields slots. -/
theorem C12_validation_witness :
    runSearch (some { goodParams with providers := .array [] }) none sampleXhr
        = { sent := [], result := .stopped }
      ∧ (runSearch (some goodParams) none sampleXhr).sent = [buildRequest goodParams none]
      ∧ (runSearch (some goodParams) none sampleXhr).result ≠ .stopped :=
  ⟨(C12_validation { goodParams with providers := .array [] } none sampleXhr).1
      (Or.inr (Or.inr (Or.inl rfl))),
   (C12_validation goodParams none sampleXhr).2 _ _ "NEW" rfl rfl (by decide)⟩

/-- C13 (as stated, refuted): an object with the properties id, rule and name is
normalised to a tuple whose rule is 0: the property named rule is not read. -/
theorem C13_counterexample :
    normalizedProviders [.object [("id", .num 7), ("rule", .num 2), ("name", .str "Dr A")]]
        = [{ provider := .num 7, vrule := .num 0, providerName := .str "Dr A" }]
      ∧ (normalizedProviders
            [.object [("id", .num 7), ("rule", .num 2), ("name", .str "Dr A")]]).map
          (fun n => n.vrule) ≠ [.num 2] := by
  decide

/-- C13 (amended): normalisation maps the provider list element by element, keeping
length and order.  A bare number p becomes the tuple with provider p, rule 0 and an
empty name.  An object becomes the tuple with its property id as provider, its property
vrule as rule (0 when that property is missing or undefined) and its property name as
name (the empty string when that property is missing or falsy). -/
theorem C13_normalisation (providers : List ProviderInput) :
    (normalizedProviders providers).length = providers.length
      ∧ (∀ (i : Nat) (n : Int), providers[i]? = some (.number n) →
          (normalizedProviders providers)[i]?
            = some ({ provider := .num n, vrule := .num 0, providerName := .str "" }
                : NormalizedProvider))
      ∧ (∀ (i : Nat) (o : JSObject), providers[i]? = some (.object o) →
          (normalizedProviders providers)[i]?
            = some ({ provider := (o.lookup "id").getD .undefined,
                      vrule :=
                        (match o.lookup "vrule" with
                         | some v => if v = .undefined then .num 0 else v
                         | none => .num 0),
                      providerName :=
                        (match o.lookup "name" with
                         | some v => if v.truthy then v else .str ""
                         | none => .str "") } : NormalizedProvider)) := by
  refine ⟨by simp [normalizedProviders], ?_, ?_⟩
  · intro i n h
    simp [normalizedProviders, List.getElem?_map, h, normalizeProvider]
  · intro i o h
    simp only [normalizedProviders, List.getElem?_map, h, Option.map_some', normalizeProvider,
      objGet, Option.some.injEq, NormalizedProvider.mk.injEq, true_and]
    constructor
    · cases o.lookup "vrule" with
      | none => simp
      | some v => by_cases hv : v = .undefined <;> simp [hv]
    · cases o.lookup "name" with
      | none => simp [jsOr, JSVal.truthy]
      | some v => simp [jsOr]

/-- C13 (amended), instance: a number, an object with vrule, an object with rule only. -/
theorem C13_normalisation_witness :
    (normalizedProviders
        [.number 5, .object [("id", .num 7), ("vrule", .num 2)],
         .object [("id", .num 8), ("rule", .num 3), ("name", .str "Dr B")]])[1]?
      = some ({ provider := .num 7, vrule := .num 2, providerName := .str "" }
          : NormalizedProvider) :=
  (C13_normalisation
      [.number 5, .object [("id", .num 7), ("vrule", .num 2)],
       .object [("id", .num 8), ("rule", .num 3), ("name", .str "Dr B")]]).2.2 1
    [("id", .num 7), ("vrule", .num 2)] rfl

/-! ### Search page: fallback to embedded sub-documents -/

/-- A document with at least one row that has an id yields a listing with one tuple per
such row. -/
theorem extract_some_of_ids (d : Document)
    (hK : 0 < (patientLinks d).countP (fun l => (rowId l).isSome)) :
    ∃ ps, extractPatientsFromDocument d = some ps
      ∧ ps.length = (patientLinks d).countP (fun l => (rowId l).isSome)
      ∧ ps.map (fun t => t.hiddenPatientId) = (patientLinks d).filterMap rowId := by
  have hids := listing_ids d
  have hlen := length_filterMap_rowId (patientLinks d)
  cases hr : extractPatientsFromDocument d with
  | none =>
    rw [hr] at hids
    simp only [listingTuples, Option.getD_none, List.map_nil] at hids
    rw [← hids] at hlen
    simp only [List.length_nil] at hlen
    omega
  | some ps =>
    rw [hr] at hids
    simp only [listingTuples, Option.getD_some] at hids
    refine ⟨ps, rfl, ?_, hids⟩
    rw [← hlen, ← hids, List.length_map]

/-- The fallback loop returns the listing of the first reachable sub-document that
yields one, whatever comes after it. -/
theorem searchIframes_first_hit (f : Frame) (d : Document) (ps : List PatientTuple)
    (post : List Frame) (hf : f.contentDocument = some d)
    (hd : extractPatientsFromDocument d = some ps) :
    ∀ pre : List Frame,
      (∀ g ∈ pre, ∀ e, g.contentDocument = some e → extractPatientsFromDocument e = none) →
      searchIframes (pre ++ f :: post) = some (ps, frameLocation f) := by
  intro pre
  induction pre with
  | nil =>
    intro _
    simp [searchIframes, hf, hd]
  | cons g rest ih =>
    intro hpre
    have ihr := ih (fun g2 hg2 => hpre g2 (List.mem_cons_of_mem _ hg2))
    simp only [List.cons_append]
    unfold searchIframes
    cases hc : g.contentDocument with
    | none => simpa using ihr
    | some e =>
      have he := hpre g (by simp) e hc
      simp [he, ihr]

/-- The location text of a sub-document is never the text used for the page itself. -/
theorem frameLocation_ne_current (f : Frame) : frameLocation f ≠ "current page" := by
  intro h
  have hdata := congrArg String.data h
  simp [frameLocation, String.data_append] at hdata

/-- C14: on the search page, when the primary document has no result row and some
reachable sub-document has K > 0 well-formed rows, the listing found is the K tuples of
the first such sub-document in iframe order (the sub-documents before it, unreachable or
without a well-formed row, are skipped; what comes after it plays no part), and the
reported location is the text for that sub-document, not the text for the current page.
When the primary document yields tuples, the listing and the location are those of the
primary document, whatever the sub-documents are. -/
theorem C14_iframe_fallback (page : Page) :
    (∀ (pre post : List Frame) (f : Frame) (d : Document),
        (patientLinks page.document).length = 0 →
        page.iframes = pre ++ f :: post →
        (∀ g ∈ pre, ∀ e, g.contentDocument = some e →
          ∀ l ∈ patientLinks e, rowId l = none) →
        f.contentDocument = some d →
        0 < (patientLinks d).countP (fun l => (rowId l).isSome) →
        ∃ ps, extractPatientsFromDocument d = some ps
          ∧ ps.length = (patientLinks d).countP (fun l => (rowId l).isSome)
          ∧ ps.map (fun t => t.hiddenPatientId) = (patientLinks d).filterMap rowId
          ∧ findPatients page = some (ps, frameLocation f)
          ∧ frameLocation f ≠ "current page")
      ∧ (∀ ps, extractPatientsFromDocument page.document = some ps →
          findPatients page = some (ps, "current page")) := by
  constructor
  · intro pre post f d hmain hframes hpre hf hK
    obtain ⟨ps, hps, hlen, hids⟩ := extract_some_of_ids d hK
    have hm : extractPatientsFromDocument page.document = none := by
      apply extract_none_of_no_ids
      intro l hl
      rw [List.length_eq_zero.mp hmain] at hl
      simp at hl
    have hpre2 : ∀ g ∈ pre, ∀ e, g.contentDocument = some e →
        extractPatientsFromDocument e = none :=
      fun g hg e he => extract_none_of_no_ids e (hpre g hg e he)
    have hs := searchIframes_first_hit f d ps post hf hps pre hpre2
    refine ⟨ps, hps, hlen, hids, ?_, frameLocation_ne_current f⟩
    simp [findPatients, hm, hframes, hs]
  · intro ps hps
    simp [findPatients, hps]

/-- C14, instance: an empty primary document, an unreachable sub-document, a reachable
one without rows, then the sub-document named results with two well-formed rows, then
another sub-document with a listing that is not consulted. -/
theorem C14_iframe_fallback_witness :
    ∃ ps, extractPatientsFromDocument mixedListing = some ps
      ∧ ps.length = 2
      ∧ findPatients
          { document := noRowsListing,
            iframes := [{ contentDocument := none }, { contentDocument := some noRowsListing },
                        { id := "results", contentDocument := some mixedListing },
                        { id := "other", contentDocument := some fullListing }] }
          = some (ps, frameLocation { id := "results", contentDocument := some mixedListing }) := by
  obtain ⟨ps, h1, h2, _, h4, _⟩ :=
    (C14_iframe_fallback
      { document := noRowsListing,
        iframes := [{ contentDocument := none }, { contentDocument := some noRowsListing },
                    { id := "results", contentDocument := some mixedListing },
                    { id := "other", contentDocument := some fullListing }] }).1
      [{ contentDocument := none }, { contentDocument := some noRowsListing }]
      [{ id := "other", contentDocument := some fullListing }]
      { id := "results", contentDocument := some mixedListing } mixedListing
      (by decide) rfl
      (by
        intro g hg e he
        simp only [List.mem_cons, List.mem_singleton, List.not_mem_nil, or_false] at hg
        rcases hg with rfl | rfl
        · simp at he
        · simp only [Option.some.injEq] at he
          subst he
          decide)
      rfl (by decide)
  exact ⟨ps, h1, h2.trans (by decide), h4⟩

/-! ### Listing indices and `openPatient` -/

/-- C15 (the code departs from it): in a listing extracted from a page with a malformed
row between two well-formed rows, the second tuple is printed with index 3, and
`openPatient(3)` returns nothing while `openPatient(2)` returns that tuple; in a listing
with a single tuple extracted after a malformed row, the tuple is printed with index 2
and `openPatient(2)` returns nothing. -/
theorem C15_printed_index_after_skipped_row :
    (∃ p q, extractPatientsFromDocument mixedListing = some [p, q]
        ∧ p.index = 1 ∧ q.index = 3
        ∧ (openPatient [p, q] [] 3).1 = none
        ∧ (openPatient [p, q] [] 2).1 = some q)
      ∧ (∃ r, extractPatientsFromDocument skippedFirstListing = some [r]
        ∧ r.index = 2
        ∧ (openPatient [r] [] 2).1 = none
        ∧ (openPatient [r] [] 1).1 = some r) := by
  constructor
  · refine ⟨_, _, rfl, ?_, ?_, ?_, ?_⟩ <;> decide
  · refine ⟨_, rfl, ?_, ?_, ?_⟩ <;> decide

end UipShared
